import Mathlib

/-!
# octave-sockets: a shallow embedding of `src/socket.cc`

Every builtin of `socket.cc` (`socket`, `connect`, `disconnect`, `gethostbyname`,
`send`, `recv`, `bind`, `listen`, `accept`, `setsockopt`, `getsockopt`) is a
function from a `World` and an argument list to a `result`.

* The interpreter state the code reads and writes (the global `error_state`, the
  messages handed to `error` and `warning`, `errno`, the static flag
  `type_loaded`) is the record `World`.
* The operating system is an oracle `Platform.os`: given the calls made so far
  and the current call, it yields the reply.  Every call is appended to
  `World.calls`, so "no OS call is made" reads "`calls` is unchanged".
* Host values (`octave_value`) are described by the value classes the code can
  be given, with the library conversions `int_value`, `string_value`,
  `array_value`, `scalar_map_value`, `is_string`, `byte_size`, `numel`.
-/

namespace Sockets

/-! ## Host values -/

/-- An `octave_value`.  `scalar n` is a real scalar whose `int_value ()` is the C
`int` `n`; `str` is a character string; `char_rows` is the character matrix built
from a `string_vector`; `uint8_array` is a `uint8NDArray` with its two dimensions
and its elements in storage order; `num_array w d` is any other numeric array
whose elements take `w` bytes each; `scalar_map` is an `octave_scalar_map`. -/
inductive octave_value where
  | undefined
  | scalar (n : Int)
  | str (s : String)
  | char_rows (rows : List String)
  | uint8_array (rows cols : Nat) (d : List Nat)
  | num_array (elsize : Nat) (d : List Int)
  | scalar_map (fields : List (String × octave_value))

abbrev octave_value_list := List octave_value

namespace octave_value

/-- The integer `int_value ()` converts the value to, `none` when the conversion
raises an error.  A non-empty array converts to its first element. -/
def int_conv : octave_value → Option Int
  | scalar n => some n
  | uint8_array _ _ (x :: _) => some (Int.ofNat x)
  | num_array _ (x :: _) => some x
  | _ => none

/-- The member `is_string ()`. -/
def is_string : octave_value → Bool
  | str _ => true
  | char_rows _ => true
  | _ => false

/-- The string `string_value ()` converts the value to, `none` when the
conversion raises an error.  A character matrix converts to its first row. -/
def string_conv : octave_value → Option String
  | str s => some s
  | char_rows rows => some (rows.headD "")
  | _ => none

/-- The member `numel ()`: the number of elements. -/
def numel : octave_value → Nat
  | undefined => 0
  | scalar _ => 1
  | str s => s.length
  | char_rows rows => rows.length * (rows.map String.length).foldl max 0
  | uint8_array _ _ d => d.length
  | num_array _ d => d.length
  | scalar_map _ => 1

/-- The doubles `array_value ()` converts the value to, `none` when the conversion
raises an error. -/
def array_conv : octave_value → Option (List Int)
  | scalar n => some [n]
  | uint8_array _ _ d => some (d.map Int.ofNat)
  | num_array _ d => some d
  | _ => none

/-- The fields `scalar_map_value ()` converts the value to, `none` when the
conversion raises an error. -/
def map_conv : octave_value → Option (List (String × octave_value))
  | scalar_map fields => some fields
  | _ => none

end octave_value

mutual
/-- The member `byte_size ()`: the bytes the elements of the value take. -/
def octave_value.byte_size : octave_value → Nat
  | .undefined => 0
  | .scalar _ => 8
  | .str s => s.length
  | .char_rows rows => rows.length * (rows.map String.length).foldl max 0
  | .uint8_array _ _ d => d.length
  | .num_array w d => w * d.length
  | .scalar_map fields => fields_byte_size fields
/-- The sum of the byte sizes of the fields of a map. -/
def fields_byte_size : List (String × octave_value) → Nat
  | [] => 0
  | (_, v) :: rest => v.byte_size + fields_byte_size rest
end

/-- The member `getfield` of `octave_scalar_map`: the value stored under `key`, an
undefined value when there is no such field. -/
def getfield (fields : List (String × octave_value)) (key : String) : octave_value :=
  match fields.find? (fun kv => kv.1 == key) with
  | some kv => kv.2
  | none => .undefined

/-! ## Native data -/

/-- An IPv4 address as its four bytes in memory (network order). -/
structure in_addr where
  b0 : Nat
  b1 : Nat
  b2 : Nat
  b3 : Nat
  deriving DecidableEq, Repr

/-- The constant `INADDR_ANY`. -/
def INADDR_ANY : in_addr := ⟨0, 0, 0, 0⟩

/-- A `struct sockaddr_in`; `sin_port` is the stored 16-bit field. -/
structure sockaddr_in where
  sin_family : Int
  sin_port : Nat
  sin_addr : in_addr
  deriving DecidableEq, Repr

/-- A `struct hostent`, as far as the code reads it. -/
structure hostent where
  h_length : Int
  h_addr_list : List in_addr
  deriving DecidableEq, Repr

/-- The library function `inet_ntoa`: dotted-decimal text of an address. -/
def inet_ntoa (a : in_addr) : String :=
  toString a.b0 ++ "." ++ toString a.b1 ++ "." ++ toString a.b2 ++ "." ++ toString a.b3

/-- The library function `htons` on a host whose byte order is given: the value is
cut to 16 bits and, on a little-endian host, its two bytes are swapped. -/
def htons (big_endian : Bool) (x : Int) : Nat :=
  let v := (x % 65536).toNat
  if big_endian then v else (v % 256) * 256 + v / 256

/-- The cast `(unsigned char) x` of an integral double. -/
def uchar_cast (x : Int) : Nat := (x % 256).toNat

/-- The bytes of a `std::string`, one per character. -/
def c_str (s : String) : List Nat := s.toList.map Char.toNat

/-! ## The operating system and the interpreter state -/

/-- A call of an OS or C-library primitive, with the arguments passed by value and
the contents of the buffers passed by pointer. -/
inductive os_call where
  | WSAStartup
  | socket (domain : Int) (type : Int) (protocol : Int)
  | close (fd : Int)
  | gethostbyname (name : String)
  | connect (fd : Int) (addr : sockaddr_in)
  | send (fd : Int) (buf : List Nat) (len : Nat) (flags : Int)
  | recv (fd : Int) (len : Int) (flags : Int)
  | bind (fd : Int) (addr : sockaddr_in)
  | listen (fd : Int) (backlog : Int)
  | accept (fd : Int)
  | setsockopt (fd : Int) (level : Int) (opt : Int) (value : Int) (optlen : Nat)
  | getsockopt (fd : Int) (level : Int) (opt : Int) (value : Int) (optlen : Int)
  deriving DecidableEq, Repr

/-- What a primitive leaves behind: its return value, `errno` after the call, and
the objects it wrote through the pointers it was given (`buf` holds the bytes `recv`
stored in the caller's buffer, from its start; `addr` the address after `accept`;
`optval` and `optlen` the two locals after `getsockopt`; `host` the result of
`gethostbyname`). -/
structure os_reply where
  ret : Int
  errno : Int
  buf : List Nat
  addr : sockaddr_in
  optval : Int
  optlen : Int
  host : Option hostent
  deriving DecidableEq, Repr

/-- A message handed to `error` or `warning`: the format and its arguments. -/
inductive fmt_arg where
  | int (n : Int)
  | str (s : String)
  deriving DecidableEq, Repr

structure message where
  fmt : String
  args : List fmt_arg
  deriving DecidableEq, Repr

/-- The build and the machine: whether `__WIN32__` is defined, the OS oracle,
`strerror`, the values of the macros `AF_INET` and `SOCK_STREAM`, the byte order,
the indeterminate initial contents of the locals `value` and `len` of
`getsockopt`, and the indeterminate content of memory cell `i`, counted from the
start of the receive buffer of `recv`, when nothing was stored there. -/
structure Platform where
  win32 : Bool
  os : List os_call → os_call → os_reply
  strerror : Int → String
  AF_INET : Int
  SOCK_STREAM : Int
  big_endian : Bool
  uninit_value : Int
  uninit_len : Int
  indeterminate : Nat → Nat

/-- The state the builtins read and write. -/
structure World where
  error_state : Bool
  errors : List message
  warnings : List message
  errno : Int
  type_loaded : Bool
  calls : List os_call
  deriving DecidableEq, Repr

/-- What a builtin leaves: the state and the value list it returns. -/
structure result where
  world : World
  ret : octave_value_list

/-- The interpreter discards the value list of a builtin that returns with
`error_state` set: the caller is handed nothing. -/
def result.delivered (r : result) : octave_value_list :=
  if r.world.error_state then [] else r.ret

/-- The function `error (fmt, ...)`: records the message and sets `error_state`;
control returns to the caller. -/
def error (w : World) (fmt : String) (args : List fmt_arg) : World :=
  { w with error_state := true, errors := w.errors ++ [⟨fmt, args⟩] }

/-- The function `warning (fmt, ...)`. -/
def warning (w : World) (fmt : String) (args : List fmt_arg) : World :=
  { w with warnings := w.warnings ++ [⟨fmt, args⟩] }

/-- The function `print_usage ()`: an error that shows the usage. -/
def print_usage (w : World) : World :=
  error w "Invalid call" []

/-- One call of a primitive: the oracle answers, the call is logged, `errno` is
what the primitive left. -/
def syscall (P : Platform) (w : World) (c : os_call) : os_reply × World :=
  let r := P.os w.calls c
  (r, { w with calls := w.calls ++ [c], errno := r.errno })

/-- The conversion `arg.int_value ()`: a failed conversion sets `error_state` and
yields 0. -/
def int_value (v : octave_value) (w : World) : Int × World :=
  match v.int_conv with
  | some n => (n, w)
  | none => (0, { w with error_state := true })

/-- The conversion `arg.string_value ()`. -/
def string_value (v : octave_value) (w : World) : String × World :=
  match v.string_conv with
  | some s => (s, w)
  | none => ("", { w with error_state := true })

/-- The conversion `arg.array_value ()`. -/
def array_value (v : octave_value) (w : World) : List Int × World :=
  match v.array_conv with
  | some d => (d, w)
  | none => ([], { w with error_state := true })

/-- The conversion `arg.scalar_map_value ()`. -/
def scalar_map_value (v : octave_value) (w : World) :
    List (String × octave_value) × World :=
  match v.map_conv with
  | some m => (m, w)
  | none => ([], { w with error_state := true })

/-- The element `args(i)`. -/
def arg (args : octave_value_list) (i : Nat) : octave_value :=
  args.getD i .undefined

/-- The loop `for (int i = 0; i < n; i++) dst[i] = f (src[i]);`.  A read past the
end of `src` yields `dflt`. -/
def copy_loop {α β : Type} (f : α → β) (dflt : α) (src : List α) (n : Nat)
    (dst : List β) : List β :=
  (List.range n).foldl (fun acc i => acc.set i (f (src.getD i dflt))) dst

/-- The receive buffer of `recv` after the OS call: `len` cells; the OS stores at
most `len` bytes, from the start, and a cell it did not store has an indeterminate
content. -/
def receive_buffer (P : Platform) (len : Nat) (stored : List Nat) : List Nat :=
  (List.range len).map (fun i => (stored.take len).getD i (P.indeterminate i))

/-- The `n` cells the copy loop of `recv` reads when it runs `n` times: the receive
buffer, followed, when `n` exceeds `len`, by the memory after the end of the buffer,
whose content is indeterminate. -/
def reachable_memory (P : Platform) (len : Nat) (stored : List Nat) (n : Nat) : List Nat :=
  receive_buffer P len stored
    ++ (List.range (n - len)).map (fun j => P.indeterminate (len + j))

/-! ## The builtins of `socket.cc` -/

/-- The `#ifdef __WIN32__` block at the head of `socket`: when `type_loaded` is
not set it is set and `WSAStartup` is called.  The first component is `false` when
the block ends in `error` and `return`. -/
def winsock_init (P : Platform) (w : World) : Bool × World :=
  if P.win32 = true ∧ w.type_loaded = false then
    let r := syscall P { w with type_loaded := true } .WSAStartup
    if r.1.ret ≠ 0 then
      (false, error r.2 "socket: could not initialize winsock library" [])
    else (true, r.2)
  else (true, w)

/-- The builtin `socket`.  After the winsock block the arguments given are
converted, and `::socket` is called. -/
def socket (P : Platform) (w : World) (args : octave_value_list) : result :=
  let init := winsock_init P w
  if init.1 = false then ⟨init.2, [.undefined]⟩ else
  let nargin := args.length
  let domain := if nargin > 0 then int_value (arg args 0) init.2 else (P.AF_INET, init.2)
  if nargin > 0 ∧ domain.2.error_state = true then
    ⟨error domain.2 "socket: DOMAIN must be a scalar integer" [], [.undefined]⟩ else
  let type := if nargin > 1 then int_value (arg args 1) domain.2 else (P.SOCK_STREAM, domain.2)
  if nargin > 1 ∧ type.2.error_state = true then
    ⟨error type.2 "socket: TYPE must be a scalar integer" [], [.undefined]⟩ else
  let protocol := if nargin > 2 then int_value (arg args 2) type.2 else (0, type.2)
  if nargin > 2 ∧ protocol.2.error_state = true then
    ⟨error protocol.2 "socket: PROTOCOL must be a scalar integer" [], [.undefined]⟩
  else if nargin > 2 ∧ protocol.1 ≠ 0 then
    ⟨error protocol.2 "socket: for now, PROTOCOL must always be 0 (zero)" [], [.undefined]⟩ else
  let r := syscall P protocol.2 (.socket domain.1 type.1 protocol.1)
  let sock_fd := r.1.ret
  let w1 := if sock_fd = -1 then
      error r.2 "socket failed with error %i (%s)"
        [.int r.2.errno, .str (P.strerror r.2.errno)]
    else r.2
  ⟨w1, [.scalar sock_fd]⟩

/-- The helper `get_socket`: the integer of the argument, -1 if the conversion
failed. -/
def get_socket (v : octave_value) (w : World) : Int × World :=
  let fd := int_value v w
  if fd.2.error_state = true then (-1, fd.2) else fd

/-- The helper `close_octavesocket`: `::close`, or `::closesocket` with
`__WIN32__`; the return value is dropped. -/
def close_octavesocket (P : Platform) (w : World) (sock_fd : Int) : World :=
  (syscall P w (.close sock_fd)).2

/-- The builtin `connect`.  The first entry of an empty address list is read as
the zero address. -/
def connect (P : Platform) (w : World) (args : octave_value_list) : result :=
  if args.length ≠ 2 then ⟨print_usage w, [.undefined]⟩ else
  let s := get_socket (arg args 0) w
  if s.2.error_state = true then
    ⟨error s.2 "connect: S must be a valid socket" [], [.undefined]⟩ else
  let struct_serverInfo := scalar_map_value (arg args 1) s.2
  if struct_serverInfo.2.error_state = true then
    ⟨error struct_serverInfo.2 "connect: SERVERINFO must be a struct" [], [.undefined]⟩ else
  let addr := string_value (getfield struct_serverInfo.1 "addr") struct_serverInfo.2
  let port := int_value (getfield struct_serverInfo.1 "port") addr.2
  if port.2.error_state = true then
    ⟨error port.2
      "connect: SERVERINFO must have a string and integer in fields \"addr\" and \"port\"" [],
      [.undefined]⟩
  else if addr.1.isEmpty = true then
    ⟨error port.2 "connect: SERVERINFO addr is an empty string" [], [.undefined]⟩ else
  let h := syscall P port.2 (.gethostbyname addr.1)
  match h.1.host with
  | none => ⟨error h.2 "connect: error in gethostbyname()" [], [.undefined]⟩
  | some hostInfo =>
    let serverInfo : sockaddr_in :=
      ⟨P.AF_INET, htons P.big_endian port.1, hostInfo.h_addr_list.headD INADDR_ANY⟩
    let r := syscall P h.2 (.connect s.1 serverInfo)
    let retval := r.1.ret
    let w1 := if retval = -1 then
        error r.2 "connect failed with error %i (%s)"
          [.int r.2.errno, .str (P.strerror r.2.errno)]
      else r.2
    ⟨w1, [.scalar retval]⟩

/-- The builtin `disconnect`. -/
def disconnect (P : Platform) (w : World) (args : octave_value_list) : result :=
  if args.length ≠ 1 then ⟨print_usage w, [.undefined]⟩ else
  let s := get_socket (arg args 0) w
  if s.2.error_state = false then
    ⟨close_octavesocket P s.2 s.1, [.scalar 0]⟩
  else ⟨s.2, [.scalar (-1)]⟩

/-- The builtin `gethostbyname`.  The loop runs `h_length/4` times and appends the
text of entry `i` of the address list; an entry past the end of the list is read
as the zero address. -/
def gethostbyname (P : Platform) (w : World) (args : octave_value_list) : result :=
  if args.length ≠ 1 then ⟨print_usage w, [.undefined]⟩ else
  let addr := string_value (arg args 0) w
  if addr.2.error_state = true then
    ⟨error addr.2 "gethostbyname: HOSTNAME must be a string" [], [.undefined]⟩ else
  let h := syscall P addr.2 (.gethostbyname addr.1)
  let host_list : List String :=
    match h.1.host with
    | some hostInfo =>
      (List.range (Int.tdiv hostInfo.h_length 4).toNat).foldl
        (fun acc i => acc ++ [inet_ntoa (hostInfo.h_addr_list.getD i INADDR_ANY)]) []
    | none => []
  ⟨h.2, [.char_rows host_list]⟩

/-- The builtin `send`.  A string is sent with the flags given; any other value
whose byte size equals its element count is converted element by element to
`unsigned char` and sent with flags 0; anything else is an error. -/
def send (P : Platform) (w : World) (args : octave_value_list) : result :=
  let nargin := args.length
  if nargin < 2 ∨ nargin > 3 then ⟨print_usage w, [.undefined]⟩ else
  let flags := if nargin > 2 then int_value (arg args 2) w else (0, w)
  if nargin > 2 ∧ flags.2.error_state = true then
    ⟨error flags.2 "send: FLAGS must be a scalar integer" [], [.undefined]⟩ else
  let s := get_socket (arg args 0) flags.2
  if s.2.error_state = true then
    ⟨error s.2 "send: s must be a valid socket" [], [.undefined]⟩ else
  let data := arg args 1
  if data.is_string = true then
    let buf := string_value data s.2
    let r := syscall P buf.2 (.send s.1 (c_str buf.1) buf.1.length flags.1)
    ⟨r.2, [.scalar r.1.ret]⟩
  else if data.byte_size = data.numel then
    let d1 := array_value data s.2
    let length := d1.1.length
    let buf := copy_loop uchar_cast 0 d1.1 length (List.replicate length 0)
    let r := syscall P d1.2 (.send s.1 buf data.byte_size 0)
    ⟨r.2, [.scalar r.1.ret]⟩
  else
    ⟨error s.2 "connect: invalid DATA to send.  Please format it prior to sending" [],
      [.undefined]⟩

/-- The builtin `recv`.  The status is the second output; the first is an empty
`uint8NDArray` when the status is not positive, else a 1-by-status row copied cell
by cell from the start of the `len`-byte buffer; the loop runs `retval` times,
whatever `len` is. -/
def recv (P : Platform) (w : World) (args : octave_value_list) : result :=
  let nargin := args.length
  if nargin < 2 ∨ nargin > 3 then ⟨print_usage w, [.undefined]⟩ else
  let flags := if nargin > 2 then int_value (arg args 2) w else (0, w)
  if nargin > 2 ∧ flags.2.error_state = true then
    ⟨error flags.2 "recv: FLAGS must be a scalar integer" [], [.undefined]⟩ else
  let s := get_socket (arg args 0) flags.2
  if s.2.error_state = true then
    ⟨error s.2 "recv: S must be a valid socket" [], [.undefined]⟩ else
  let len := int_value (arg args 1) s.2
  if len.2.error_state = true ∨ len.1 < 0 then
    ⟨error len.2 "recv: LEN must be a non-negative integer" [], [.scalar (-1)]⟩ else
  let r := syscall P len.2 (.recv s.1 len.1 flags.1)
  let retval := r.1.ret
  let buf := reachable_memory P len.1.toNat r.1.buf retval.toNat
  let w1 := if retval = -1 then
      warning r.2 "recv error %i (%s)" [.int r.2.errno, .str (P.strerror r.2.errno)]
    else r.2
  let data : octave_value :=
    if retval ≤ 0 then .uint8_array 0 0 []
    else .uint8_array 1 retval.toNat
      (copy_loop id 0 buf retval.toNat (List.replicate retval.toNat 0))
  ⟨w1, [data, .scalar retval]⟩

/-- The builtin `bind`. -/
def bind (P : Platform) (w : World) (args : octave_value_list) : result :=
  if args.length ≠ 2 then ⟨print_usage w, [.undefined]⟩ else
  let s := get_socket (arg args 0) w
  if s.2.error_state = true then
    ⟨error s.2 "bind: S must be a valid socket" [], [.undefined]⟩ else
  let port := int_value (arg args 1) s.2
  if port.2.error_state = true then
    ⟨error port.2 "bind: PORT must be a scalar integer" [], [.undefined]⟩ else
  let serverInfo : sockaddr_in := ⟨P.AF_INET, htons P.big_endian port.1, INADDR_ANY⟩
  let r := syscall P port.2 (.bind s.1 serverInfo)
  let retval := r.1.ret
  let w1 := if retval = -1 then
      error r.2 "bind failed with error %i (%s)" [.int r.2.errno, .str (P.strerror r.2.errno)]
    else r.2
  ⟨w1, [.scalar retval]⟩

/-- The builtin `listen`. -/
def listen (P : Platform) (w : World) (args : octave_value_list) : result :=
  if args.length ≠ 2 then ⟨print_usage w, [.undefined]⟩ else
  let s := get_socket (arg args 0) w
  if s.2.error_state = true then
    ⟨error s.2 "listen: S must be a valid socket" [], [.undefined]⟩ else
  let backlog := int_value (arg args 1) s.2
  if backlog.2.error_state = true then
    ⟨error backlog.2 "listen: BACKLOG must be an integer scalar" [], [.undefined]⟩ else
  let r := syscall P backlog.2 (.listen s.1 backlog.1)
  let retval := r.1.ret
  let w1 := if retval = -1 then
      error r.2 "listen failed with error %i (%s)"
        [.int r.2.errno, .str (P.strerror r.2.errno)]
    else r.2
  ⟨w1, [.scalar retval]⟩

/-- The builtin `accept`. -/
def accept (P : Platform) (w : World) (args : octave_value_list) : result :=
  if args.length ≠ 1 then ⟨print_usage w, [.undefined]⟩ else
  let s := get_socket (arg args 0) w
  if s.2.error_state = true then
    ⟨error s.2 "accept: S must be a valid socket" [], [.undefined]⟩ else
  let r := syscall P s.2 (.accept s.1)
  let clientInfo := r.1.addr
  let fd := r.1.ret
  if fd = -1 then
    ⟨error r.2 "accept failed with error %i (%s)"
      [.int r.2.errno, .str (P.strerror r.2.errno)], [.undefined]⟩ else
  let client_info_map : List (String × octave_value) :=
    [("sin_family", .scalar clientInfo.sin_family),
     ("sin_port", .scalar (Int.ofNat clientInfo.sin_port)),
     ("sin_addr", .str (inet_ntoa clientInfo.sin_addr))]
  ⟨r.2, [.scalar fd, .scalar_map client_info_map]⟩

/-- The builtin `setsockopt`; the option value is passed with `sizeof (int)`, 4. -/
def setsockopt (P : Platform) (w : World) (args : octave_value_list) : result :=
  if args.length ≠ 4 then ⟨print_usage w, [.undefined]⟩ else
  let s := get_socket (arg args 0) w
  if s.2.error_state = true then
    ⟨error s.2 "setsockopt: S must be a valid socket" [], [.undefined]⟩ else
  let level := int_value (arg args 1) s.2
  let opt := int_value (arg args 2) level.2
  let value := int_value (arg args 3) opt.2
  if value.2.error_state = true then
    ⟨error value.2 "setsockopt: LEVEL, OPT and VALUE must be integer values" [],
      [.undefined]⟩ else
  let r := syscall P value.2 (.setsockopt s.1 level.1 opt.1 value.1 4)
  let w1 := if r.1.ret = -1 then
      error r.2 "setsockopt failed with error %i (%s)"
        [.int r.2.errno, .str (P.strerror r.2.errno)]
    else r.2
  ⟨w1, [.undefined]⟩

/-- The builtin `getsockopt`.  Neither `error` call is followed by a `return`, so
`::getsockopt` is called in every case; the locals `value` and `len` are passed
with the contents they happen to have. -/
def getsockopt (P : Platform) (w : World) (args : octave_value_list) : result :=
  if args.length ≠ 3 then ⟨print_usage w, [.undefined]⟩ else
  let s := get_socket (arg args 0) w
  let w1 := if s.2.error_state = true then
      error s.2 "getsockopt: S must be a valid socket" []
    else s.2
  let level := int_value (arg args 1) w1
  let opt := int_value (arg args 2) level.2
  let w2 := if opt.2.error_state = true then
      error opt.2 "getsockopt: LEVEL and OPT must be integer values" []
    else opt.2
  let r := syscall P w2 (.getsockopt s.1 level.1 opt.1 P.uninit_value P.uninit_len)
  let value := r.1.optval
  let len := r.1.optlen
  let w3 := if r.1.ret = -1 then
      error r.2 "setsockopt failed with error %i (%s)"
        [.int r.2.errno, .str (P.strerror r.2.errno)]
    else r.2
  let w4 := if len ≠ 4 then
      error w3 "getsockopt: currently only int arguments are available for optval" []
    else w3
  ⟨w4, [.scalar value]⟩

/-! ## Concrete platforms and worlds -/

/-- A reply that carries a return value and `errno` only. -/
def plain_reply (ret errno : Int) : os_reply :=
  ⟨ret, errno, [], ⟨0, 0, INADDR_ANY⟩, 0, 0, none⟩

/-- The bytes of the most recent `send` that carried any, among the calls made so
far. -/
def last_sent : List os_call → List Nat
  | [] => []
  | c :: rest =>
    match last_sent rest, c with
    | [], .send _ buf _ _ => buf
    | later, _ => later

/-- A loopback OS: `send` takes everything, `recv` stores the bytes of the most
recent `send` (at most the length asked for) and returns their number, `socket` and
`accept` yield descriptors 3 and 4, everything else succeeds. -/
def loopback_os (hist : List os_call) : os_call → os_reply
  | .socket _ _ _ => plain_reply 3 0
  | .accept _ => ⟨4, 0, [], ⟨2, 4135, ⟨127, 0, 0, 1⟩⟩, 0, 0, none⟩
  | .send _ _ len _ => plain_reply (Int.ofNat len) 0
  | .recv _ len _ =>
    let data := (last_sent hist).take len.toNat
    ⟨Int.ofNat data.length, 0, data, ⟨0, 0, INADDR_ANY⟩, 0, 0, none⟩
  | .gethostbyname _ => ⟨0, 0, [], ⟨0, 0, INADDR_ANY⟩, 0, 0, some ⟨4, [⟨127, 0, 0, 1⟩]⟩⟩
  | .getsockopt _ _ _ _ _ => ⟨0, 0, [], ⟨0, 0, INADDR_ANY⟩, 1, 4, none⟩
  | _ => plain_reply 0 0

/-- An OS on which the resolver answers and every socket primitive fails with
`errno` 9. -/
def failing_os (_ : List os_call) : os_call → os_reply
  | .WSAStartup => plain_reply 10091 9
  | .gethostbyname _ => ⟨0, 0, [], ⟨0, 0, INADDR_ANY⟩, 0, 0, some ⟨4, [⟨127, 0, 0, 1⟩]⟩⟩
  | _ => plain_reply (-1) 9

/-- An OS whose `send` cannot take data at once: with the flag `MSG_DONTWAIT` (64)
it fails with `errno` 11, otherwise it behaves as the loopback OS. -/
def busy_os (hist : List os_call) : os_call → os_reply
  | .send fd buf len flags =>
    if flags = 64 then plain_reply (-1) 11 else loopback_os hist (.send fd buf len flags)
  | c => loopback_os hist c

/-- A POSIX build (no `__WIN32__`, little-endian) over the loopback OS. -/
def posix_loopback : Platform :=
  ⟨false, loopback_os, fun _ => "error text", 2, 1, false, 0, 0, fun _ => 170⟩

/-- A POSIX build over the failing OS. -/
def posix_failing : Platform :=
  ⟨false, failing_os, fun _ => "Bad file descriptor", 2, 1, false, 0, 0, fun _ => 170⟩

/-- A POSIX build over the busy OS. -/
def posix_busy : Platform :=
  ⟨false, busy_os, fun _ => "Resource temporarily unavailable", 2, 1, false, 0, 0, fun _ => 170⟩

/-- The state at the start of a session: no error, nothing logged. -/
def fresh : World := ⟨false, [], [], 0, false, []⟩

/-! ## Argument lists -/

/-- The optional trailing flags argument of `send` and `recv`: absent it stands for
0, present it stands for the integer it converts to. -/
def optional_flags : octave_value_list → Option Int
  | [] => some 0
  | [fv] => fv.int_conv
  | _ => none

/-- The domain, type and protocol an argument list of `socket` stands for: the
defaults `AF_INET`, `SOCK_STREAM` and 0 for the arguments left out, the integers
the others convert to. -/
def socket_args (P : Platform) : octave_value_list → Option (Int × Int × Int)
  | [] => some (P.AF_INET, P.SOCK_STREAM, 0)
  | [dv] => dv.int_conv.map (fun d => (d, P.SOCK_STREAM, 0))
  | [dv, tv] => dv.int_conv.bind (fun d => tv.int_conv.map (fun t => (d, t, 0)))
  | dv :: tv :: pv :: _ =>
    dv.int_conv.bind (fun d => tv.int_conv.bind (fun t => pv.int_conv.map (fun p => (d, t, p))))

/-- A hard failure that reports the OS error code: the builtin returns with
`error_state` set, it has handed `error` the format `fmt` with `errno` and the text
of `errno`, and the caller is delivered no value. -/
@[reducible]
def reports_os_failure (P : Platform) (fmt : String) (errno : Int) (r : result) : Prop :=
  r.world.error_state = true
    ∧ ⟨fmt, [.int errno, .str (P.strerror errno)]⟩ ∈ r.world.errors
    ∧ r.delivered.isEmpty = true

/-- The builtins of the file. -/
inductive builtin where
  | socket | connect | disconnect | gethostbyname | send | recv
  | bind | listen | accept | setsockopt | getsockopt
  deriving DecidableEq, Repr

/-- The function behind each builtin name. -/
def builtin.run : builtin → Platform → World → octave_value_list → result
  | .socket => Sockets.socket
  | .connect => Sockets.connect
  | .disconnect => Sockets.disconnect
  | .gethostbyname => Sockets.gethostbyname
  | .send => Sockets.send
  | .recv => Sockets.recv
  | .bind => Sockets.bind
  | .listen => Sockets.listen
  | .accept => Sockets.accept
  | .setsockopt => Sockets.setsockopt
  | .getsockopt => Sockets.getsockopt

/-- The message each builtin hands to `error` when `get_socket` fails on its first
argument; the three builtins without such a call have none. -/
def handle_message : builtin → String
  | .connect => "connect: S must be a valid socket"
  | .send => "send: s must be a valid socket"
  | .recv => "recv: S must be a valid socket"
  | .bind => "bind: S must be a valid socket"
  | .listen => "listen: S must be a valid socket"
  | .accept => "accept: S must be a valid socket"
  | .setsockopt => "setsockopt: S must be a valid socket"
  | .getsockopt => "getsockopt: S must be a valid socket"
  | _ => ""

/-- The checks a builtin passes before it converts its handle: the number of
arguments it accepts and, for `send` and `recv`, a flags argument that converts. -/
def reaches_handle_check : builtin → octave_value_list → Bool
  | .connect, args => args.length == 2
  | .bind, args => args.length == 2
  | .listen, args => args.length == 2
  | .accept, args => args.length == 1
  | .setsockopt, args => args.length == 4
  | .getsockopt, args => args.length == 3
  | .send, args => args.length == 2 || (args.length == 3 && (arg args 2).int_conv.isSome)
  | .recv, args => args.length == 2 || (args.length == 3 && (arg args 2).int_conv.isSome)
  | _, _ => false

/-! ## Further platforms and runs of calls -/

/-- The value of the most recent `setsockopt` on the descriptor, level and option
given, among the calls made so far. -/
def stored_option (fd level opt : Int) : List os_call → Option Int
  | [] => none
  | c :: rest =>
    match stored_option fd level opt rest, c with
    | some v, _ => some v
    | none, .setsockopt fd1 level1 opt1 v _ =>
      if fd1 = fd ∧ level1 = level ∧ opt1 = opt then some v else none
    | none, _ => none

/-- An OS that keeps socket options: `setsockopt` succeeds, `getsockopt` reports
the value stored last (0 when none was stored) with width 4; everything else as on
the loopback OS. -/
def option_os (hist : List os_call) : os_call → os_reply
  | .getsockopt fd level opt _ _ =>
    ⟨0, 0, [], ⟨0, 0, INADDR_ANY⟩, (stored_option fd level opt hist).getD 0, 4, none⟩
  | c => loopback_os hist c

/-- A POSIX build over the option-keeping OS; the locals `value` and `len` of
`getsockopt` start with the contents 77 and 1. -/
def posix_options : Platform :=
  ⟨false, option_os, fun _ => "error text", 2, 1, false, 77, 1, fun _ => 170⟩

/-- An OS whose resolver finds no host; everything else as on the loopback OS. -/
def unresolving_os (hist : List os_call) : os_call → os_reply
  | .gethostbyname _ => plain_reply 0 0
  | c => loopback_os hist c

/-- A POSIX build over the OS whose resolver finds no host. -/
def posix_unresolving : Platform :=
  ⟨false, unresolving_os, fun _ => "error text", 2, 1, false, 0, 0, fun _ => 170⟩

/-- An OS whose resolver reports two IPv4 addresses for every host; everything else
as on the loopback OS. -/
def multihomed_os (hist : List os_call) : os_call → os_reply
  | .gethostbyname _ =>
    ⟨0, 0, [], ⟨0, 0, INADDR_ANY⟩, 0, 0, some ⟨4, [⟨10, 0, 0, 1⟩, ⟨10, 0, 0, 2⟩]⟩⟩
  | c => loopback_os hist c

/-- A POSIX build over the multihomed OS. -/
def posix_multihomed : Platform :=
  ⟨false, multihomed_os, fun _ => "error text", 2, 1, false, 0, 0, fun _ => 170⟩

/-- A datagram socket with the five bytes of "hello" pending: `recv` stores as many
of them as the buffer takes; with the flag `MSG_TRUNC` (32) it returns the length of
the datagram, 5, otherwise the number of bytes stored.  Everything else as on the
loopback OS. -/
def datagram_os (hist : List os_call) : os_call → os_reply
  | .recv _ len flags =>
    ⟨if flags = 32 then 5 else Int.ofNat ([104, 101, 108, 108, 111].take len.toNat).length,
      0, [104, 101, 108, 108, 111].take len.toNat, ⟨0, 0, INADDR_ANY⟩, 0, 0, none⟩
  | c => loopback_os hist c

/-- A POSIX build over the datagram OS. -/
def posix_datagram : Platform :=
  ⟨false, datagram_os, fun _ => "error text", 2, 1, false, 0, 0, fun _ => 170⟩

theorem copy_loop_aux {α β : Type} (f : α → β) (dflt : α) (src : List α) (dst : List β) :
    ∀ k, k ≤ dst.length →
      copy_loop f dflt src k dst
        = (List.range k).map (fun i => f (src.getD i dflt)) ++ dst.drop k := by
  intro k
  induction k with
  | zero => intro _; simp [copy_loop]
  | succ k ih =>
    intro hk
    have ih1 := ih (by omega)
    unfold copy_loop at ih1 ⊢
    rw [List.range_succ, List.foldl_append, ih1]
    simp only [List.foldl_cons, List.foldl_nil, List.map_append, List.map_cons, List.map_nil]
    obtain ⟨x, rest, hx⟩ : ∃ x rest, dst.drop k = x :: rest := by
      cases h : dst.drop k with
      | nil =>
        have := congrArg List.length h
        simp at this; omega
      | cons x rest => exact ⟨x, rest, rfl⟩
    have hd : dst.drop (k + 1) = rest := by
      have : dst.drop (k + 1) = (dst.drop k).drop 1 := by simp [List.drop_drop]
      rw [this, hx]; rfl
    rw [hx, hd, List.set_append_right _ _ (by simp)]
    simp

theorem copy_loop_eq_take {α β : Type} (f : α → β) (dflt : α) (src : List α) (dst : List β)
    (n : Nat) (hdst : dst.length = n) (hsrc : n ≤ src.length) :
    copy_loop f dflt src n dst = (src.take n).map f := by
  rw [copy_loop_aux f dflt src dst n (by omega)]
  have : dst.drop n = [] := by simp [List.drop_eq_nil_iff, hdst]
  rw [this, List.append_nil]
  apply List.ext_getElem
  · simp; omega
  · intro i h1 h2
    simp at h1 h2
    simp [List.getD_eq_getElem?_getD, List.getElem?_eq_getElem (show i < src.length by omega)]

theorem uchar_cast_ofNat (b : Nat) (h : b < 256) : uchar_cast (Int.ofNat b) = b := by
  unfold uchar_cast
  simp only [Int.ofNat_eq_coe]
  omega

theorem map_uchar_cast_bytes (B : List Nat) (h : ∀ b ∈ B, b < 256) :
    (B.map Int.ofNat).map uchar_cast = B := by
  induction B with
  | nil => rfl
  | cons b rest ih =>
    simp only [List.map_cons]
    rw [uchar_cast_ofNat b (h b (by simp)), ih (fun x hx => h x (by simp [hx]))]

/-- The buffer `send` builds from a `uint8` array is the array. -/
theorem send_buffer_uint8 (B : List Nat) (h : ∀ b ∈ B, b < 256) :
    copy_loop uchar_cast 0 (B.map Int.ofNat) (B.map Int.ofNat).length
      (List.replicate (B.map Int.ofNat).length 0) = B := by
  rw [copy_loop_eq_take _ _ _ _ _ (by simp) (Nat.le_refl _), List.take_length]
  exact map_uchar_cast_bytes B h

theorem receive_buffer_length (P : Platform) (len : Nat) (stored : List Nat) :
    (receive_buffer P len stored).length = len := by
  simp [receive_buffer]

/-- The copy loop of `recv` yields the cells it reads. -/
theorem recv_copy (P : Platform) (len : Nat) (stored : List Nat) (n : Nat) :
    copy_loop id 0 (reachable_memory P len stored n) n (List.replicate n 0)
      = (reachable_memory P len stored n).take n := by
  rw [copy_loop_eq_take id 0 _ _ n (by simp)
    (by simp [reachable_memory, receive_buffer]; omega), List.map_id]

/-- While the loop stays inside the buffer it reads the buffer. -/
theorem reachable_take_within (P : Platform) (len : Nat) (stored : List Nat) (n : Nat)
    (h : n ≤ len) :
    (reachable_memory P len stored n).take n = (receive_buffer P len stored).take n := by
  have h0 : n - len = 0 := by omega
  simp [reachable_memory, h0]

/-- The first cells of the buffer are the bytes the OS stored. -/
theorem receive_buffer_take_stored (P : Platform) (len : Nat) (stored : List Nat) (n : Nat)
    (h : n ≤ len) (hs : n ≤ stored.length) :
    (receive_buffer P len stored).take n = stored.take n := by
  apply List.ext_getElem
  · simp [receive_buffer]; omega
  · intro i h1 h2
    simp at h1 h2
    simp [receive_buffer, List.getD_eq_getElem?_getD, List.getElem?_take,
      List.getElem?_eq_getElem (show i < stored.length by omega),
      show i < len by omega]

theorem optional_flags_cases {fl : octave_value_list} {f : Int}
    (h : optional_flags fl = some f) :
    (fl = [] ∧ f = 0) ∨ ∃ fv, fl = [fv] ∧ fv.int_conv = some f := by
  match fl, h with
  | [], h => left; simp [optional_flags] at h; exact ⟨rfl, h.symm⟩
  | [fv], h => right; exact ⟨fv, rfl, h⟩
  | _ :: _ :: _, h => simp [optional_flags] at h

theorem int_value_some {v : octave_value} {n : Int} (w : World) (h : v.int_conv = some n) :
    int_value v w = (n, w) := by
  simp [int_value, h]

theorem int_value_none {v : octave_value} (w : World) (h : v.int_conv = none) :
    int_value v w = (0, { w with error_state := true }) := by
  simp [int_value, h]

theorem get_socket_some {v : octave_value} {n : Int} (w : World) (h : v.int_conv = some n)
    (hw : w.error_state = false) : get_socket v w = (n, w) := by
  simp [get_socket, int_value, h, hw]

theorem get_socket_none {v : octave_value} (w : World) (h : v.int_conv = none) :
    get_socket v w = (-1, { w with error_state := true }) := by
  simp [get_socket, int_value, h]

/-- What `recv` does once its arguments have passed the checks: one OS call, a
warning if it returned -1, and the two outputs. -/
theorem recv_valid (P : Platform) (w : World) (hv lenv : octave_value)
    (fl : octave_value_list) (s len f : Int)
    (hw : w.error_state = false) (hsock : hv.int_conv = some s)
    (hlen : lenv.int_conv = some len) (hlen0 : 0 ≤ len)
    (hfl : optional_flags fl = some f) :
    recv P w ([hv, lenv] ++ fl)
      = ⟨if (P.os w.calls (.recv s len f)).ret = -1 then
            warning { w with calls := w.calls ++ [.recv s len f],
                             errno := (P.os w.calls (.recv s len f)).errno }
              "recv error %i (%s)"
              [.int (P.os w.calls (.recv s len f)).errno,
               .str (P.strerror (P.os w.calls (.recv s len f)).errno)]
          else { w with calls := w.calls ++ [.recv s len f],
                        errno := (P.os w.calls (.recv s len f)).errno },
         [if (P.os w.calls (.recv s len f)).ret ≤ 0 then .uint8_array 0 0 []
          else .uint8_array 1 (P.os w.calls (.recv s len f)).ret.toNat
            ((reachable_memory P len.toNat (P.os w.calls (.recv s len f)).buf
              (P.os w.calls (.recv s len f)).ret.toNat).take
              (P.os w.calls (.recv s len f)).ret.toNat),
          .scalar (P.os w.calls (.recv s len f)).ret]⟩ := by
  have hlen1 : ¬ len < 0 := by omega
  rcases optional_flags_cases hfl with ⟨rfl, rfl⟩ | ⟨fv, rfl, hfv⟩
  · simp only [recv, arg, List.cons_append, List.nil_append, List.length_cons,
      List.length_nil, List.getD_cons_zero, List.getD_cons_succ]
    simp [get_socket_some w hsock hw, int_value_some w hlen, hw, syscall, hlen1, recv_copy]
  · simp only [recv, arg, List.cons_append, List.nil_append, List.length_cons,
      List.length_nil, List.getD_cons_zero, List.getD_cons_succ]
    simp [int_value_some w hfv, get_socket_some w hsock hw,
      int_value_some w hlen, hw, syscall, hlen1, recv_copy]

/-! ## Theorems -/

/-- C1 (send/receive marshalling round trip).  For every non-empty byte sequence
`B` with values 0..255 passed to `send` as a `uint8` array (with or without a flags
argument), the one OS call made is `send` with buffer exactly `B` and length `|B|`;
and for every requested length `len ≥ |B|`, when the OS `recv` call leaves `B` as
the first `|B|` bytes of the buffer and returns `|B|`, `recv` returns the 1-by-`|B|`
`uint8` row vector `B` and the count `|B|`. -/
theorem send_recv_roundtrip (P : Platform) (ws wr : World) (hs hr lenv : octave_value)
    (fs fr : octave_value_list) (s r len g f : Int) (rows cols : Nat) (B : List Nat)
    (hne : B ≠ []) (hbyte : ∀ b ∈ B, b < 256)
    (hws : ws.error_state = false) (hwr : wr.error_state = false)
    (hsock : hs.int_conv = some s) (hrsock : hr.int_conv = some r)
    (hfs : optional_flags fs = some g) (hfr : optional_flags fr = some f)
    (hlen : lenv.int_conv = some len) (hge : (B.length : Int) ≤ len)
    (hret : (P.os wr.calls (.recv r len f)).ret = B.length)
    (hbuf : (P.os wr.calls (.recv r len f)).buf.take B.length = B) :
    (send P ws ([hs, .uint8_array rows cols B] ++ fs)).world.calls
        = ws.calls ++ [.send s B B.length 0]
      ∧ (recv P wr ([hr, lenv] ++ fr)).ret
        = [.uint8_array 1 B.length B, .scalar B.length] := by
  have hpos : 0 < B.length := List.length_pos.mpr hne
  have hb : copy_loop uchar_cast 0 (List.map Int.ofNat B) B.length
      (List.replicate B.length 0) = B := by
    simpa using send_buffer_uint8 B hbyte
  constructor
  · rcases optional_flags_cases hfs with ⟨rfl, -⟩ | ⟨fv, rfl, hfv⟩
    · simp [send, arg, get_socket_some ws hsock hws, hws, octave_value.is_string,
        octave_value.byte_size, octave_value.numel, array_value, octave_value.array_conv,
        syscall, hb]
    · simp [send, arg, int_value_some ws hfv, get_socket_some ws hsock hws, hws,
        octave_value.is_string, octave_value.byte_size, octave_value.numel, array_value,
        octave_value.array_conv, syscall, hb]
  · have hlb : B.length ≤ (P.os wr.calls (.recv r len f)).buf.length := by
      have := congrArg List.length hbuf
      simp at this; omega
    have hlen0 : 0 ≤ len := by omega
    have hin : B.length ≤ len.toNat := by omega
    rw [recv_valid P wr hr lenv fr r len f hwr hrsock hlen hlen0 hfr, hret]
    have hnot : ¬ ((B.length : Int) ≤ 0) := by omega
    simp only [hnot, if_false, Int.toNat_ofNat]
    rw [reachable_take_within P _ _ _ hin, receive_buffer_take_stored P _ _ _ hin hlb, hbuf]

/-- Witness of C1 on the loopback OS: the bytes 72, 105 are sent on handle 3 and
received, with 100 bytes requested, on handle 4. -/
theorem send_recv_roundtrip_witness :
    (send posix_loopback fresh [.scalar 3, .uint8_array 1 2 [72, 105]]).world.calls
        = [.send 3 [72, 105] 2 0]
      ∧ (recv posix_loopback
          (send posix_loopback fresh [.scalar 3, .uint8_array 1 2 [72, 105]]).world
          [.scalar 4, .scalar 100]).ret
        = [.uint8_array 1 2 [72, 105], .scalar 2] :=
  send_recv_roundtrip posix_loopback fresh
    (send posix_loopback fresh [.scalar 3, .uint8_array 1 2 [72, 105]]).world
    (.scalar 3) (.scalar 4) (.scalar 100) [] [] 3 4 100 0 0 1 2 [72, 105]
    (by decide) (by decide) rfl rfl rfl rfl rfl rfl rfl
    (by decide) (by decide) (by decide)

/-- The OS call `send` makes for a string: the bytes of the string, its length and
the flags given. -/
theorem send_text_call (P : Platform) (w : World) (hv : octave_value)
    (fl : octave_value_list) (s f : Int) (T : String)
    (hw : w.error_state = false) (hsock : hv.int_conv = some s)
    (hfl : optional_flags fl = some f) :
    (send P w ([hv, .str T] ++ fl)).world.calls
      = w.calls ++ [.send s (c_str T) T.length f] := by
  rcases optional_flags_cases hfl with ⟨rfl, rfl⟩ | ⟨fv, rfl, hfv⟩
  · simp [send, arg, get_socket_some w hsock hw, hw, octave_value.is_string, string_value,
      octave_value.string_conv, syscall]
  · simp [send, arg, int_value_some w hfv, get_socket_some w hsock hw, hw,
      octave_value.is_string, string_value, octave_value.string_conv, syscall]

/-- The OS call `send` makes for a `uint8` array: the bytes, their number, and
flags 0 whatever flags were given. -/
theorem send_uint8_call (P : Platform) (w : World) (hv : octave_value)
    (fl : octave_value_list) (s f : Int) (rows cols : Nat) (U : List Nat)
    (hbyte : ∀ b ∈ U, b < 256)
    (hw : w.error_state = false) (hsock : hv.int_conv = some s)
    (hfl : optional_flags fl = some f) :
    (send P w ([hv, .uint8_array rows cols U] ++ fl)).world.calls
      = w.calls ++ [.send s U U.length 0] := by
  have hb : copy_loop uchar_cast 0 (List.map Int.ofNat U) U.length
      (List.replicate U.length 0) = U := by
    simpa using send_buffer_uint8 U hbyte
  rcases optional_flags_cases hfl with ⟨rfl, rfl⟩ | ⟨fv, rfl, hfv⟩
  · simp [send, arg, get_socket_some w hsock hw, hw, octave_value.is_string,
      octave_value.byte_size, octave_value.numel, array_value, octave_value.array_conv,
      syscall, hb]
  · simp [send, arg, int_value_some w hfv, get_socket_some w hsock hw, hw,
      octave_value.is_string, octave_value.byte_size, octave_value.numel, array_value,
      octave_value.array_conv, syscall, hb]

/-- C2 (send symmetry) does not hold on the code.  The string "Hi" and the `uint8`
array [72, 105] encode the same two bytes; sent on handle 3 with flags 64
(`MSG_DONTWAIT`), the string reaches the OS with flags 64 and the array with flags
0, and on an OS that cannot take the data at once the first call returns -1 and the
second returns 2. -/
theorem send_symmetry_broken_by_flags :
    c_str "Hi" = [72, 105]
      ∧ (send posix_busy fresh [.scalar 3, .str "Hi", .scalar 64]).world.calls
        = [.send 3 [72, 105] 2 64]
      ∧ (send posix_busy fresh [.scalar 3, .uint8_array 1 2 [72, 105], .scalar 64]).world.calls
        = [.send 3 [72, 105] 2 0]
      ∧ (send posix_busy fresh [.scalar 3, .str "Hi", .scalar 64]).ret = [.scalar (-1)]
      ∧ (send posix_busy fresh [.scalar 3, .uint8_array 1 2 [72, 105], .scalar 64]).ret
        = [.scalar 2] :=
  ⟨by decide, by decide, by decide, rfl, rfl⟩

/-- C3 (validation precedes syscalls) does not hold for `getsockopt`.  With a
string as handle the conversion fails and the error is raised, yet `::getsockopt` is
called, with handle -1; `setsockopt` on the same handle makes no OS call. -/
theorem getsockopt_calls_os_after_failed_validation :
    (octave_value.str "sock").int_conv = none
      ∧ (getsockopt posix_loopback fresh [.str "sock", .scalar 1, .scalar 2]).world.errors
        = [⟨"getsockopt: S must be a valid socket", []⟩,
           ⟨"getsockopt: LEVEL and OPT must be integer values", []⟩]
      ∧ (getsockopt posix_loopback fresh [.str "sock", .scalar 1, .scalar 2]).world.calls
        = [.getsockopt (-1) 1 2 0 0]
      ∧ (setsockopt posix_loopback fresh
          [.str "sock", .scalar 1, .scalar 2, .scalar 1]).world.calls = [] :=
  ⟨rfl, by decide, by decide, by decide⟩

/-- C4 (handle validation) does not hold for negative handles.  `listen` with
handle -5 raises no validation error: it calls `::listen` with -5, and the only
error raised is the failure of that call. -/
theorem negative_handle_reaches_os :
    (listen posix_failing fresh [.scalar (-5), .scalar 1]).world.calls = [.listen (-5) 1]
      ∧ (listen posix_failing fresh [.scalar (-5), .scalar 1]).world.errors
        = [⟨"listen failed with error %i (%s)", [.int 9, .str "Bad file descriptor"]⟩]
      ∧ (bind posix_loopback fresh [.scalar (-5), .scalar 9001]).world.calls
        = [.bind (-5) ⟨2, 10531, INADDR_ANY⟩]
      ∧ (bind posix_loopback fresh [.scalar (-5), .scalar 9001]).world.error_state = false :=
  ⟨by decide, by decide, by decide, by decide⟩

/-- A handle that does not convert is refused.  For each of connect, send, recv,
bind, listen, accept, setsockopt and getsockopt, called with an argument list that
passes the checks made before the handle is converted: when the handle argument
does not convert to an integer, the builtin raises its "must be a valid socket"
error; and for every one of them but getsockopt that error is the only one raised
and no OS primitive is called. -/
theorem unconvertible_handle_rejected (op : builtin) (P : Platform) (w : World)
    (args : octave_value_list)
    (hop : op ∈ [builtin.connect, .send, .recv, .bind, .listen, .accept, .setsockopt,
      .getsockopt])
    (hw : w.error_state = false)
    (hpre : reaches_handle_check op args = true)
    (hbad : (arg args 0).int_conv = none) :
    (op.run P w args).world.error_state = true
      ∧ ⟨handle_message op, []⟩ ∈ (op.run P w args).world.errors
      ∧ (op ≠ .getsockopt →
          (op.run P w args).world.errors = w.errors ++ [⟨handle_message op, []⟩]
            ∧ (op.run P w args).world.calls = w.calls) := by
  simp only [List.mem_cons, List.mem_singleton, List.not_mem_nil, or_false] at hop
  rcases hop with rfl | rfl | rfl | rfl | rfl | rfl | rfl | rfl
  · simp only [reaches_handle_check, beq_iff_eq] at hpre
    simp [builtin.run, connect, hpre, get_socket_none w hbad, error, handle_message]
  · simp only [reaches_handle_check, beq_iff_eq, Bool.or_eq_true, Bool.and_eq_true,
      Option.isSome_iff_exists] at hpre
    rcases hpre with h2 | ⟨h3, f, hf⟩
    · simp [builtin.run, send, h2, hw, get_socket_none w hbad, error, handle_message]
    · simp [builtin.run, send, h3, hw, int_value_some w hf, get_socket_none w hbad, error,
        handle_message]
  · simp only [reaches_handle_check, beq_iff_eq, Bool.or_eq_true, Bool.and_eq_true,
      Option.isSome_iff_exists] at hpre
    rcases hpre with h2 | ⟨h3, f, hf⟩
    · simp [builtin.run, recv, h2, hw, get_socket_none w hbad, error, handle_message]
    · simp [builtin.run, recv, h3, hw, int_value_some w hf, get_socket_none w hbad, error,
        handle_message]
  · simp only [reaches_handle_check, beq_iff_eq] at hpre
    simp [builtin.run, bind, hpre, get_socket_none w hbad, error, handle_message]
  · simp only [reaches_handle_check, beq_iff_eq] at hpre
    simp [builtin.run, listen, hpre, get_socket_none w hbad, error, handle_message]
  · simp only [reaches_handle_check, beq_iff_eq] at hpre
    simp [builtin.run, accept, hpre, get_socket_none w hbad, error, handle_message]
  · simp only [reaches_handle_check, beq_iff_eq] at hpre
    simp [builtin.run, setsockopt, hpre, get_socket_none w hbad, error, handle_message]
  · simp only [reaches_handle_check, beq_iff_eq] at hpre
    rcases h1 : (arg args 1).int_conv with _ | l <;>
    rcases h2 : (arg args 2).int_conv with _ | o <;>
    simp [builtin.run, getsockopt, hpre, get_socket_none w hbad, error, handle_message,
      int_value, syscall, h1, h2] <;>
    split_ifs <;> simp

/-- The lemma on handles that do not convert, at `bind` with a string as handle. -/
theorem unconvertible_handle_rejected_witness :
    (bind posix_loopback fresh [.str "sock", .scalar 9001]).world.error_state = true
      ∧ (bind posix_loopback fresh [.str "sock", .scalar 9001]).world.errors
        = [⟨"bind: S must be a valid socket", []⟩]
      ∧ (bind posix_loopback fresh [.str "sock", .scalar 9001]).world.calls = [] :=
  have h := unconvertible_handle_rejected .bind posix_loopback fresh
    [.str "sock", .scalar 9001] (by decide) rfl rfl rfl
  ⟨h.1, (h.2.2 (by decide)).1, (h.2.2 (by decide)).2⟩

/-- The OS calls `connect` makes once its arguments convert and the host name
resolves: the lookup, then `connect` on the handle. -/
theorem connect_calls (P : Platform) (w : World) (hv mv : octave_value)
    (fields : List (String × octave_value)) (s port : Int) (addr : String) (host : hostent)
    (hw : w.error_state = false) (hsock : hv.int_conv = some s)
    (hmap : mv.map_conv = some fields)
    (haddr : (getfield fields "addr").string_conv = some addr)
    (hport : (getfield fields "port").int_conv = some port) (hne : addr.isEmpty = false)
    (hhost : (P.os w.calls (.gethostbyname addr)).host = some host) :
    (connect P w [hv, mv]).world.calls
      = w.calls ++ [.gethostbyname addr,
          .connect s ⟨P.AF_INET, htons P.big_endian port,
            host.h_addr_list.headD INADDR_ANY⟩] := by
  simp [connect, arg, get_socket_some w hsock hw, hw, scalar_map_value, hmap,
    string_value, haddr, int_value_some w hport, hne, syscall, hhost]
  split_ifs <;> simp [error]

/-- C4 as amended.  For each of connect, send, recv, bind, listen, accept,
setsockopt and getsockopt, called with an argument list that passes the checks made
before the handle is converted: when the handle argument does not convert to an
integer, the builtin raises its "must be a valid socket" error, and for every one of
them but getsockopt that error is the only one raised and no OS primitive is
called.  A handle that converts to an integer is not checked further: for every
integer `s`, negative ones included, each of the eight builtins, called with
remaining arguments that convert (for connect a host name that resolves, for send a
string or a `uint8` array, for recv a length that is not negative), calls its OS
primitive with `s` as the descriptor. -/
theorem handle_checked_for_conversion_only (P : Platform) (w : World)
    (hw : w.error_state = false) :
    (∀ (op : builtin) (args : octave_value_list),
        op ∈ [builtin.connect, .send, .recv, .bind, .listen, .accept, .setsockopt,
          .getsockopt] →
        reaches_handle_check op args = true → (arg args 0).int_conv = none →
        (op.run P w args).world.error_state = true
          ∧ ⟨handle_message op, []⟩ ∈ (op.run P w args).world.errors
          ∧ (op ≠ .getsockopt →
              (op.run P w args).world.errors = w.errors ++ [⟨handle_message op, []⟩]
                ∧ (op.run P w args).world.calls = w.calls))
      ∧ (∀ (hv : octave_value) (s : Int), hv.int_conv = some s →
          (∀ (mv : octave_value) (fields : List (String × octave_value)) (port : Int)
              (addr : String) (host : hostent),
              mv.map_conv = some fields →
              (getfield fields "addr").string_conv = some addr →
              (getfield fields "port").int_conv = some port → addr.isEmpty = false →
              (P.os w.calls (.gethostbyname addr)).host = some host →
              (connect P w [hv, mv]).world.calls
                = w.calls ++ [.gethostbyname addr,
                    .connect s ⟨P.AF_INET, htons P.big_endian port,
                      host.h_addr_list.headD INADDR_ANY⟩])
            ∧ (∀ (T : String) (fl : octave_value_list) (f : Int),
                optional_flags fl = some f →
                (send P w ([hv, .str T] ++ fl)).world.calls
                  = w.calls ++ [.send s (c_str T) T.length f])
            ∧ (∀ (rows cols : Nat) (U : List Nat) (fl : octave_value_list) (f : Int),
                (∀ b ∈ U, b < 256) → optional_flags fl = some f →
                (send P w ([hv, .uint8_array rows cols U] ++ fl)).world.calls
                  = w.calls ++ [.send s U U.length 0])
            ∧ (∀ (lenv : octave_value) (len : Int) (fl : octave_value_list) (f : Int),
                lenv.int_conv = some len → 0 ≤ len → optional_flags fl = some f →
                (recv P w ([hv, lenv] ++ fl)).world.calls = w.calls ++ [.recv s len f])
            ∧ (∀ (pv : octave_value) (port : Int), pv.int_conv = some port →
                (bind P w [hv, pv]).world.calls
                  = w.calls ++ [.bind s ⟨P.AF_INET, htons P.big_endian port, INADDR_ANY⟩])
            ∧ (∀ (bv : octave_value) (backlog : Int), bv.int_conv = some backlog →
                (listen P w [hv, bv]).world.calls = w.calls ++ [.listen s backlog])
            ∧ (accept P w [hv]).world.calls = w.calls ++ [.accept s]
            ∧ (∀ (lv ov vv : octave_value) (l o v : Int),
                lv.int_conv = some l → ov.int_conv = some o → vv.int_conv = some v →
                (setsockopt P w [hv, lv, ov, vv]).world.calls
                  = w.calls ++ [.setsockopt s l o v 4])
            ∧ (∀ (lv ov : octave_value) (l o : Int),
                lv.int_conv = some l → ov.int_conv = some o →
                (getsockopt P w [hv, lv, ov]).world.calls
                  = w.calls ++ [.getsockopt s l o P.uninit_value P.uninit_len])) := by
  refine ⟨?_, ?_⟩
  · intro op args hop hpre hbad
    exact unconvertible_handle_rejected op P w args hop hw hpre hbad
  · intro hv s hsock
    refine ⟨?_, ?_, ?_, ?_, ?_, ?_, ?_, ?_, ?_⟩
    · intro mv fields port addr host hmap haddr hport hne hhost
      exact connect_calls P w hv mv fields s port addr host hw hsock hmap haddr hport hne hhost
    · intro T fl f hfl
      exact send_text_call P w hv fl s f T hw hsock hfl
    · intro rows cols U fl f hbyte hfl
      exact send_uint8_call P w hv fl s f rows cols U hbyte hw hsock hfl
    · intro lenv len fl f hlen hlen0 hfl
      rw [recv_valid P w hv lenv fl s len f hw hsock hlen hlen0 hfl]
      simp only []
      split_ifs <;> simp [warning]
    · intro pv port hport
      simp [bind, arg, get_socket_some w hsock hw, hw, int_value_some w hport, syscall]
      split_ifs <;> simp [error]
    · intro bv backlog hback
      simp [listen, arg, get_socket_some w hsock hw, hw, int_value_some w hback, syscall]
      split_ifs <;> simp [error]
    · simp [accept, arg, get_socket_some w hsock hw, hw, syscall]
      split_ifs <;> simp [error]
    · intro lv ov vv l o v hl ho hvv
      simp [setsockopt, arg, get_socket_some w hsock hw, hw, int_value_some w hl,
        int_value_some w ho, int_value_some w hvv, syscall]
      split_ifs <;> simp [error]
    · intro lv ov l o hl ho
      simp [getsockopt, arg, get_socket_some w hsock hw, hw, int_value_some w hl,
        int_value_some w ho, syscall]
      split_ifs <;> simp [error]

/-- Witness of C4 as amended: `bind` with a string as handle is refused without an
OS call; `accept` with handle -7 and `setsockopt` with handle -1 reach the OS. -/
theorem handle_checked_for_conversion_only_witness :
    ((bind posix_loopback fresh [.str "sock", .scalar 9001]).world.errors
        = [⟨"bind: S must be a valid socket", []⟩]
      ∧ (bind posix_loopback fresh [.str "sock", .scalar 9001]).world.calls = [])
      ∧ (accept posix_loopback fresh [.scalar (-7)]).world.calls = [.accept (-7)]
      ∧ (setsockopt posix_loopback fresh
          [.scalar (-1), .scalar 1, .scalar 2, .scalar 1]).world.calls
        = [.setsockopt (-1) 1 2 1 4] :=
  ⟨((handle_checked_for_conversion_only posix_loopback fresh rfl).1 .bind
      [.str "sock", .scalar 9001] (by decide) rfl rfl).2.2 (by decide),
   ((handle_checked_for_conversion_only posix_loopback fresh rfl).2
      (.scalar (-7)) (-7) rfl).2.2.2.2.2.2.1,
   ((handle_checked_for_conversion_only posix_loopback fresh rfl).2
      (.scalar (-1)) (-1) rfl).2.2.2.2.2.2.2.1 (.scalar 1) (.scalar 2) (.scalar 1) 1 2 1
      rfl rfl rfl⟩

/-- C5 (disconnect status).  For every one-argument call: when the handle converts
to an integer `s`, `disconnect` calls the OS close on `s`, returns 0 and raises no
error, whatever the OS reports, and a second `disconnect` of the same handle again
returns 0 and raises no error; when the handle does not convert, it returns -1 and
makes no OS call; so -1 is returned only when the handle did not convert. -/
theorem disconnect_status (P : Platform) (w : World) (v : octave_value)
    (hw : w.error_state = false) :
    (∀ s, v.int_conv = some s →
        (disconnect P w [v]).ret = [.scalar 0]
          ∧ (disconnect P w [v]).world.error_state = false
          ∧ (disconnect P w [v]).world.errors = w.errors
          ∧ (disconnect P w [v]).world.calls = w.calls ++ [.close s]
          ∧ (disconnect P (disconnect P w [v]).world [v]).ret = [.scalar 0]
          ∧ (disconnect P (disconnect P w [v]).world [v]).world.error_state = false
          ∧ (disconnect P (disconnect P w [v]).world [v]).world.errors = w.errors)
      ∧ (v.int_conv = none →
          (disconnect P w [v]).ret = [.scalar (-1)]
            ∧ (disconnect P w [v]).world.calls = w.calls)
      ∧ ((disconnect P w [v]).ret = [.scalar (-1)] ↔ v.int_conv = none) := by
  refine ⟨?_, ?_, ?_⟩
  · intro s hs
    simp [disconnect, arg, get_socket, int_value, hs, hw, close_octavesocket, syscall]
  · intro hn
    simp [disconnect, arg, get_socket, int_value, hn]
  · rcases h : v.int_conv with _ | s
    · simp [disconnect, arg, get_socket, int_value, h]
    · simp [disconnect, arg, get_socket, int_value, h, hw]

/-- Witness of C5 on an OS whose close fails every time. -/
theorem disconnect_status_witness :
    (failing_os [] (.close 7)).ret = -1
      ∧ (disconnect posix_failing fresh [.scalar 7]).ret = [.scalar 0]
      ∧ (disconnect posix_failing (disconnect posix_failing fresh [.scalar 7]).world
          [.scalar 7]).ret = [.scalar 0]
      ∧ (disconnect posix_failing fresh [.str "sock"]).ret = [.scalar (-1)] :=
  ⟨by decide,
   ((disconnect_status posix_failing fresh (.scalar 7) rfl).1 7 rfl).1,
   ((disconnect_status posix_failing fresh (.scalar 7) rfl).1 7 rfl).2.2.2.2.1,
   rfl⟩

/-- C7 (receive length validation) does not hold for length 0 when the OS returns
a positive value.  On a datagram socket with five bytes pending, `recv` with
length 0 and the flag `MSG_TRUNC` (32) is accepted and calls the OS with length 0;
the OS stores nothing and returns 5, and the first output is a 1-by-5 row read past
the end of the empty buffer, not an empty byte sequence. -/
theorem recv_zero_length_returns_bytes :
    (recv posix_datagram fresh [.scalar 4, .scalar 0, .scalar 32]).world.calls
        = [.recv 4 0 32]
      ∧ (posix_datagram.os [] (.recv 4 0 32)).ret = 5
      ∧ (posix_datagram.os [] (.recv 4 0 32)).buf = []
      ∧ (recv posix_datagram fresh [.scalar 4, .scalar 0, .scalar 32]).ret
        = [.uint8_array 1 5 [170, 170, 170, 170, 170], .scalar 5]
      ∧ (recv posix_datagram fresh [.scalar 4, .scalar 0, .scalar 32]).world.error_state
        = false :=
  ⟨by decide, by decide, by decide, rfl, by decide⟩

/-- The parts of receive length validation that hold on the code.  For every
handle that converts and every flags: with a negative requested length `recv` raises the error "LEN must be a
non-negative integer" and makes no OS call; with requested length 0 it raises no
error, makes the one OS call `recv` with length 0 and, the OS returning no more
than the 0 bytes asked for, its first output is the empty `uint8` array. -/
theorem recv_length_validation (P : Platform) (w : World) (hv lenv : octave_value)
    (fl : octave_value_list) (s len f : Int)
    (hw : w.error_state = false) (hsock : hv.int_conv = some s)
    (hlen : lenv.int_conv = some len) (hfl : optional_flags fl = some f) :
    (len < 0 →
        (recv P w ([hv, lenv] ++ fl)).world.error_state = true
          ∧ (recv P w ([hv, lenv] ++ fl)).world.errors
            = w.errors ++ [⟨"recv: LEN must be a non-negative integer", []⟩]
          ∧ (recv P w ([hv, lenv] ++ fl)).world.calls = w.calls)
      ∧ (len = 0 →
          (recv P w ([hv, lenv] ++ fl)).world.error_state = false
            ∧ (recv P w ([hv, lenv] ++ fl)).world.errors = w.errors
            ∧ (recv P w ([hv, lenv] ++ fl)).world.calls = w.calls ++ [.recv s 0 f]
            ∧ ((P.os w.calls (.recv s 0 f)).ret ≤ 0 →
                (recv P w ([hv, lenv] ++ fl)).ret
                  = [.uint8_array 0 0 [], .scalar (P.os w.calls (.recv s 0 f)).ret])) := by
  constructor
  · intro hneg
    rcases optional_flags_cases hfl with ⟨rfl, rfl⟩ | ⟨fv, rfl, hfv⟩
    · simp [recv, arg, get_socket_some w hsock hw, int_value_some w hlen, hw, hneg, error]
    · simp [recv, arg, int_value_some w hfv, get_socket_some w hsock hw,
        int_value_some w hlen, hw, hneg, error]
  · intro h0
    subst h0
    rw [recv_valid P w hv lenv fl s 0 f hw hsock hlen (Int.le_refl 0) hfl]
    refine ⟨?_, ?_, ?_, ?_⟩
    · simp only []
      split_ifs <;> simp [warning, hw]
    · simp only []
      split_ifs <;> simp [warning]
    · simp only []
      split_ifs <;> simp [warning]
    · intro hle
      simp [hle]

/-- The lemma on receive length validation at length -1 and length 0 on the
loopback OS. -/
theorem recv_length_validation_witness :
    ((recv posix_loopback fresh [.scalar 4, .scalar (-1)]).world.errors
        = [⟨"recv: LEN must be a non-negative integer", []⟩]
      ∧ (recv posix_loopback fresh [.scalar 4, .scalar (-1)]).world.calls = [])
      ∧ (recv posix_loopback fresh [.scalar 4, .scalar 0]).world.calls = [.recv 4 0 0]
      ∧ (recv posix_loopback fresh [.scalar 4, .scalar 0]).ret
        = [.uint8_array 0 0 [], .scalar 0] :=
  ⟨(((recv_length_validation posix_loopback fresh (.scalar 4) (.scalar (-1)) [] 4 (-1) 0
        rfl rfl rfl rfl).1 (by decide)).2),
   ((recv_length_validation posix_loopback fresh (.scalar 4) (.scalar 0) [] 4 0 0
        rfl rfl rfl rfl).2 rfl).2.2.1,
   ((recv_length_validation posix_loopback fresh (.scalar 4) (.scalar 0) [] 4 0 0
        rfl rfl rfl rfl).2 rfl).2.2.2 (by decide)⟩

theorem winsock_init_ok (P : Platform) (w : World) (hw : w.error_state = false)
    (hinit : (winsock_init P w).1 = true) :
    (winsock_init P w).2.error_state = false ∧ (winsock_init P w).2.errors = w.errors := by
  by_cases h1 : P.win32 = true ∧ w.type_loaded = false
  · by_cases h2 : (P.os w.calls .WSAStartup).ret = 0
    · simp [winsock_init, h1, h2, syscall, hw]
    · simp [winsock_init, h1, h2, syscall] at hinit
  · simp [winsock_init, h1, hw]

theorem winsock_init_failed (P : Platform) (w : World)
    (hinit : (winsock_init P w).1 = false) :
    (winsock_init P w).2.error_state = true := by
  by_cases h1 : P.win32 = true ∧ w.type_loaded = false
  · by_cases h2 : (P.os w.calls .WSAStartup).ret = 0
    · simp [winsock_init, h1, h2, syscall] at hinit
    · simp [winsock_init, h1, h2, syscall, error]
  · simp [winsock_init, h1] at hinit

theorem winsock_init_calls (P : Platform) (w : World) :
    (winsock_init P w).2.calls = w.calls
      ∨ (winsock_init P w).2.calls = w.calls ++ [.WSAStartup] := by
  by_cases h1 : P.win32 = true ∧ w.type_loaded = false
  · by_cases h2 : (P.os w.calls .WSAStartup).ret = 0
    · simp [winsock_init, h1, h2, syscall]
    · simp [winsock_init, h1, h2, syscall, error]
  · simp [winsock_init, h1]

/-- What `socket` does once the winsock block has passed and its arguments
convert: the protocol check, then one OS call and an error if it returned -1. -/
theorem socket_valid (P : Platform) (w : World) (args : octave_value_list) (d t p : Int)
    (hw : w.error_state = false) (hinit : (winsock_init P w).1 = true)
    (hargs : socket_args P args = some (d, t, p)) :
    socket P w args
      = if p ≠ 0 then
          ⟨error (winsock_init P w).2 "socket: for now, PROTOCOL must always be 0 (zero)" [],
            [.undefined]⟩
        else
          ⟨if (P.os (winsock_init P w).2.calls (.socket d t 0)).ret = -1 then
              error { (winsock_init P w).2 with
                      calls := (winsock_init P w).2.calls ++ [.socket d t 0],
                      errno := (P.os (winsock_init P w).2.calls (.socket d t 0)).errno }
                "socket failed with error %i (%s)"
                [.int (P.os (winsock_init P w).2.calls (.socket d t 0)).errno,
                 .str (P.strerror (P.os (winsock_init P w).2.calls (.socket d t 0)).errno)]
            else { (winsock_init P w).2 with
                   calls := (winsock_init P w).2.calls ++ [.socket d t 0],
                   errno := (P.os (winsock_init P w).2.calls (.socket d t 0)).errno },
           [.scalar (P.os (winsock_init P w).2.calls (.socket d t 0)).ret]⟩ := by
  have h0 := (winsock_init_ok P w hw hinit).1
  match args, hargs with
  | [], hargs =>
    simp only [socket_args, Option.some.injEq, Prod.mk.injEq] at hargs
    obtain ⟨rfl, rfl, rfl⟩ := hargs
    simp [socket, hinit, syscall]
  | [dv], hargs =>
    simp only [socket_args, Option.map_eq_some', Prod.mk.injEq] at hargs
    obtain ⟨d', hd, rfl, rfl, rfl⟩ := hargs
    simp [socket, hinit, syscall, arg, int_value_some _ hd, h0]
  | [dv, tv], hargs =>
    simp only [socket_args, Option.bind_eq_some, Option.map_eq_some', Prod.mk.injEq] at hargs
    obtain ⟨d', hd, t', ht, rfl, rfl, rfl⟩ := hargs
    simp [socket, hinit, syscall, arg, int_value_some _ hd, int_value_some _ ht, h0]
  | dv :: tv :: pv :: rest, hargs =>
    simp only [socket_args, Option.bind_eq_some, Option.map_eq_some', Prod.mk.injEq] at hargs
    obtain ⟨d', hd, t', ht, p', hp, rfl, rfl, rfl⟩ := hargs
    by_cases hp0 : p' = 0
    · subst hp0
      simp [socket, hinit, syscall, arg, int_value_some _ hd, int_value_some _ ht,
        int_value_some _ hp, h0]
    · simp [socket, hinit, syscall, arg, int_value_some _ hd, int_value_some _ ht,
        int_value_some _ hp, h0, hp0]

/-- C8 (OS failures are hard failures).  For each of socket, connect, bind, listen,
accept, setsockopt and getsockopt called with arguments that convert: whenever the
OS primitive returns -1, the builtin returns with `error_state` set, has reported
"... failed with error %i (%s)" with `errno` and its text, and the caller is
delivered no value; when the primitive succeeds, socket and accept return the new
descriptor (accept with the peer record) and connect, bind and listen return 0. -/
theorem os_failures_are_hard_failures (P : Platform) (w : World)
    (hw : w.error_state = false) :
    (∀ (args : octave_value_list) (d t : Int),
        (winsock_init P w).1 = true → socket_args P args = some (d, t, 0) →
        ((P.os (winsock_init P w).2.calls (.socket d t 0)).ret = -1 →
            reports_os_failure P "socket failed with error %i (%s)"
              (P.os (winsock_init P w).2.calls (.socket d t 0)).errno (socket P w args))
          ∧ ((P.os (winsock_init P w).2.calls (.socket d t 0)).ret ≠ -1 →
              (socket P w args).world.error_state = false
                ∧ (socket P w args).ret
                  = [.scalar (P.os (winsock_init P w).2.calls (.socket d t 0)).ret]))
      ∧ (∀ (hv mv : octave_value) (fields : List (String × octave_value)) (s port : Int)
          (addr : String) (host : hostent),
          hv.int_conv = some s → mv.map_conv = some fields →
          (getfield fields "addr").string_conv = some addr →
          (getfield fields "port").int_conv = some port → addr.isEmpty = false →
          (P.os w.calls (.gethostbyname addr)).host = some host →
          ((P.os (w.calls ++ [.gethostbyname addr])
              (.connect s ⟨P.AF_INET, htons P.big_endian port,
                host.h_addr_list.headD INADDR_ANY⟩)).ret = -1 →
            reports_os_failure P "connect failed with error %i (%s)"
              (P.os (w.calls ++ [.gethostbyname addr])
                (.connect s ⟨P.AF_INET, htons P.big_endian port,
                  host.h_addr_list.headD INADDR_ANY⟩)).errno (connect P w [hv, mv]))
          ∧ ((P.os (w.calls ++ [.gethostbyname addr])
              (.connect s ⟨P.AF_INET, htons P.big_endian port,
                host.h_addr_list.headD INADDR_ANY⟩)).ret = 0 →
              (connect P w [hv, mv]).world.error_state = false
                ∧ (connect P w [hv, mv]).ret = [.scalar 0]))
      ∧ (∀ (hv pv : octave_value) (s port : Int),
          hv.int_conv = some s → pv.int_conv = some port →
          ((P.os w.calls (.bind s ⟨P.AF_INET, htons P.big_endian port, INADDR_ANY⟩)).ret = -1 →
            reports_os_failure P "bind failed with error %i (%s)"
              (P.os w.calls (.bind s ⟨P.AF_INET, htons P.big_endian port, INADDR_ANY⟩)).errno
              (bind P w [hv, pv]))
          ∧ ((P.os w.calls (.bind s ⟨P.AF_INET, htons P.big_endian port, INADDR_ANY⟩)).ret = 0 →
              (bind P w [hv, pv]).world.error_state = false
                ∧ (bind P w [hv, pv]).ret = [.scalar 0]))
      ∧ (∀ (hv bv : octave_value) (s backlog : Int),
          hv.int_conv = some s → bv.int_conv = some backlog →
          ((P.os w.calls (.listen s backlog)).ret = -1 →
            reports_os_failure P "listen failed with error %i (%s)"
              (P.os w.calls (.listen s backlog)).errno (listen P w [hv, bv]))
          ∧ ((P.os w.calls (.listen s backlog)).ret = 0 →
              (listen P w [hv, bv]).world.error_state = false
                ∧ (listen P w [hv, bv]).ret = [.scalar 0]))
      ∧ (∀ (hv : octave_value) (s : Int), hv.int_conv = some s →
          ((P.os w.calls (.accept s)).ret = -1 →
            reports_os_failure P "accept failed with error %i (%s)"
              (P.os w.calls (.accept s)).errno (accept P w [hv]))
          ∧ ((P.os w.calls (.accept s)).ret ≠ -1 →
              (accept P w [hv]).world.error_state = false
                ∧ (accept P w [hv]).ret
                  = [.scalar (P.os w.calls (.accept s)).ret,
                     .scalar_map
                      [("sin_family", .scalar (P.os w.calls (.accept s)).addr.sin_family),
                       ("sin_port",
                        .scalar (Int.ofNat (P.os w.calls (.accept s)).addr.sin_port)),
                       ("sin_addr",
                        .str (inet_ntoa (P.os w.calls (.accept s)).addr.sin_addr))]]))
      ∧ (∀ (hv lv ov vv : octave_value) (s level opt value : Int),
          hv.int_conv = some s → lv.int_conv = some level → ov.int_conv = some opt →
          vv.int_conv = some value →
          (P.os w.calls (.setsockopt s level opt value 4)).ret = -1 →
          reports_os_failure P "setsockopt failed with error %i (%s)"
            (P.os w.calls (.setsockopt s level opt value 4)).errno
            (setsockopt P w [hv, lv, ov, vv]))
      ∧ (∀ (hv lv ov : octave_value) (s level opt : Int),
          hv.int_conv = some s → lv.int_conv = some level → ov.int_conv = some opt →
          (P.os w.calls (.getsockopt s level opt P.uninit_value P.uninit_len)).ret = -1 →
          reports_os_failure P "setsockopt failed with error %i (%s)"
            (P.os w.calls (.getsockopt s level opt P.uninit_value P.uninit_len)).errno
            (getsockopt P w [hv, lv, ov])) := by
  refine ⟨?_, ?_, ?_, ?_, ?_, ?_, ?_⟩
  · intro args d t hinit hargs
    have h0 := (winsock_init_ok P w hw hinit).1
    rw [socket_valid P w args d t 0 hw hinit hargs]
    constructor
    · intro hfail
      simp [hfail, reports_os_failure, result.delivered, error]
    · intro hok
      simp [hok, h0]
  · intro hv mv fields s port addr host hsock hmap haddr hport hne hhost
    have hcon : connect P w [hv, mv]
        = ⟨if (P.os (w.calls ++ [.gethostbyname addr])
              (.connect s ⟨P.AF_INET, htons P.big_endian port,
                host.h_addr_list.headD INADDR_ANY⟩)).ret = -1 then
              error { w with
                  calls := w.calls ++ [.gethostbyname addr] ++
                    [.connect s ⟨P.AF_INET, htons P.big_endian port,
                      host.h_addr_list.headD INADDR_ANY⟩],
                  errno := (P.os (w.calls ++ [.gethostbyname addr])
                    (.connect s ⟨P.AF_INET, htons P.big_endian port,
                      host.h_addr_list.headD INADDR_ANY⟩)).errno }
                "connect failed with error %i (%s)"
                [.int (P.os (w.calls ++ [.gethostbyname addr])
                    (.connect s ⟨P.AF_INET, htons P.big_endian port,
                      host.h_addr_list.headD INADDR_ANY⟩)).errno,
                 .str (P.strerror (P.os (w.calls ++ [.gethostbyname addr])
                    (.connect s ⟨P.AF_INET, htons P.big_endian port,
                      host.h_addr_list.headD INADDR_ANY⟩)).errno)]
            else { w with
                  calls := w.calls ++ [.gethostbyname addr] ++
                    [.connect s ⟨P.AF_INET, htons P.big_endian port,
                      host.h_addr_list.headD INADDR_ANY⟩],
                  errno := (P.os (w.calls ++ [.gethostbyname addr])
                    (.connect s ⟨P.AF_INET, htons P.big_endian port,
                      host.h_addr_list.headD INADDR_ANY⟩)).errno },
           [.scalar (P.os (w.calls ++ [.gethostbyname addr])
              (.connect s ⟨P.AF_INET, htons P.big_endian port,
                host.h_addr_list.headD INADDR_ANY⟩)).ret]⟩ := by
      simp [connect, arg, get_socket_some w hsock hw, hw, scalar_map_value, hmap,
        string_value, haddr, int_value_some w hport, hne, syscall, hhost]
    rw [hcon]
    constructor
    · intro hfail
      rw [if_pos hfail]
      simp [reports_os_failure, result.delivered, error]
    · intro hok
      have hne1 : ¬ (P.os (w.calls ++ [.gethostbyname addr])
          (.connect s ⟨P.AF_INET, htons P.big_endian port,
            host.h_addr_list.headD INADDR_ANY⟩)).ret = -1 := by
        rw [hok]; decide
      rw [if_neg hne1, hok]
      exact ⟨hw, rfl⟩
  · intro hv pv s port hsock hport
    constructor
    · intro hfail
      simp [bind, arg, get_socket_some w hsock hw, hw, int_value_some w hport, syscall,
        hfail, reports_os_failure, result.delivered, error]
    · intro hok
      simp [bind, arg, get_socket_some w hsock hw, hw, int_value_some w hport, syscall, hok]
  · intro hv bv s backlog hsock hback
    constructor
    · intro hfail
      simp [listen, arg, get_socket_some w hsock hw, hw, int_value_some w hback, syscall,
        hfail, reports_os_failure, result.delivered, error]
    · intro hok
      simp [listen, arg, get_socket_some w hsock hw, hw, int_value_some w hback, syscall, hok]
  · intro hv s hsock
    constructor
    · intro hfail
      simp [accept, arg, get_socket_some w hsock hw, hw, syscall, hfail, reports_os_failure,
        result.delivered, error]
    · intro hok
      simp [accept, arg, get_socket_some w hsock hw, hw, syscall, hok]
  · intro hv lv ov vv s level opt value hsock hl ho hvv hfail
    simp [setsockopt, arg, get_socket_some w hsock hw, hw, int_value_some w hl,
      int_value_some w ho, int_value_some w hvv, syscall, hfail, reports_os_failure,
      result.delivered, error]
  · intro hv lv ov s level opt hsock hl ho hfail
    simp [getsockopt, arg, get_socket_some w hsock hw, hw, int_value_some w hl,
      int_value_some w ho, syscall, hfail, reports_os_failure, result.delivered]
    split_ifs <;> simp [error]

/-- Witness of C8: every primitive fails with `errno` 9 on the failing OS, and
succeeds on the loopback OS. -/
theorem os_failures_are_hard_failures_witness :
    (reports_os_failure posix_failing "socket failed with error %i (%s)" 9
        (socket posix_failing fresh [.scalar 2, .scalar 1, .scalar 0])
      ∧ reports_os_failure posix_failing "connect failed with error %i (%s)" 9
        (connect posix_failing fresh
          [.scalar 3, .scalar_map [("addr", .str "127.0.0.1"), ("port", .scalar 9001)]])
      ∧ reports_os_failure posix_failing "bind failed with error %i (%s)" 9
        (bind posix_failing fresh [.scalar 3, .scalar 9001])
      ∧ reports_os_failure posix_failing "listen failed with error %i (%s)" 9
        (listen posix_failing fresh [.scalar 3, .scalar 1])
      ∧ reports_os_failure posix_failing "accept failed with error %i (%s)" 9
        (accept posix_failing fresh [.scalar 3])
      ∧ reports_os_failure posix_failing "setsockopt failed with error %i (%s)" 9
        (setsockopt posix_failing fresh [.scalar 3, .scalar 1, .scalar 2, .scalar 1])
      ∧ reports_os_failure posix_failing "setsockopt failed with error %i (%s)" 9
        (getsockopt posix_failing fresh [.scalar 3, .scalar 1, .scalar 2]))
      ∧ (socket posix_loopback fresh []).ret = [.scalar 3]
      ∧ (connect posix_loopback fresh
          [.scalar 3, .scalar_map [("addr", .str "127.0.0.1"), ("port", .scalar 9001)]]).ret
        = [.scalar 0]
      ∧ (bind posix_loopback fresh [.scalar 3, .scalar 9001]).ret = [.scalar 0]
      ∧ (listen posix_loopback fresh [.scalar 3, .scalar 1]).ret = [.scalar 0]
      ∧ (accept posix_loopback fresh [.scalar 3]).ret
        = [.scalar 4,
           .scalar_map [("sin_family", .scalar 2), ("sin_port", .scalar 4135),
             ("sin_addr", .str "127.0.0.1")]] :=
  have hF := os_failures_are_hard_failures posix_failing fresh rfl
  have hL := os_failures_are_hard_failures posix_loopback fresh rfl
  ⟨⟨(hF.1 [.scalar 2, .scalar 1, .scalar 0] 2 1 rfl rfl).1 (by decide),
    (hF.2.1 (.scalar 3) (.scalar_map [("addr", .str "127.0.0.1"), ("port", .scalar 9001)])
      [("addr", .str "127.0.0.1"), ("port", .scalar 9001)] 3 9001 "127.0.0.1"
      ⟨4, [⟨127, 0, 0, 1⟩]⟩ rfl rfl rfl rfl rfl rfl).1 (by decide),
    (hF.2.2.1 (.scalar 3) (.scalar 9001) 3 9001 rfl rfl).1 (by decide),
    (hF.2.2.2.1 (.scalar 3) (.scalar 1) 3 1 rfl rfl).1 (by decide),
    (hF.2.2.2.2.1 (.scalar 3) 3 rfl).1 (by decide),
    hF.2.2.2.2.2.1 (.scalar 3) (.scalar 1) (.scalar 2) (.scalar 1) 3 1 2 1 rfl rfl rfl rfl
      (by decide),
    hF.2.2.2.2.2.2 (.scalar 3) (.scalar 1) (.scalar 2) 3 1 2 rfl rfl rfl (by decide)⟩,
   ((hL.1 [] 2 1 rfl rfl).2 (by decide)).2,
   ((hL.2.1 (.scalar 3) (.scalar_map [("addr", .str "127.0.0.1"), ("port", .scalar 9001)])
      [("addr", .str "127.0.0.1"), ("port", .scalar 9001)] 3 9001 "127.0.0.1"
      ⟨4, [⟨127, 0, 0, 1⟩]⟩ rfl rfl rfl rfl rfl rfl).2 (by decide)).2,
   ((hL.2.2.1 (.scalar 3) (.scalar 9001) 3 9001 rfl rfl).2 (by decide)).2,
   ((hL.2.2.2.1 (.scalar 3) (.scalar 1) 3 1 rfl rfl).2 (by decide)).2,
   ((hL.2.2.2.2.1 (.scalar 3) 3 rfl).2 (by decide)).2⟩

/-- C9 (protocol must be zero).  For every argument list of `socket` that stands
for integers domain, type and protocol `p`: with `p ≠ 0` the builtin returns with an
error and adds no call of the OS socket primitive, and once the winsock block has
passed (as it always does without `__WIN32__`) that error is "PROTOCOL must always
be 0" and no OS call is made after the block; with `p = 0`, or the protocol left
out, the next OS call is the socket primitive with exactly (domain, type, 0). -/
theorem socket_protocol_must_be_zero (P : Platform) (w : World) (args : octave_value_list)
    (d t p : Int) (hw : w.error_state = false)
    (hargs : socket_args P args = some (d, t, p)) :
    (p ≠ 0 →
        (socket P w args).world.error_state = true
          ∧ ∀ a b c, os_call.socket a b c ∈ (socket P w args).world.calls →
              os_call.socket a b c ∈ w.calls)
      ∧ ((winsock_init P w).1 = true →
          (p ≠ 0 →
            (socket P w args).world.errors
                = w.errors ++ [⟨"socket: for now, PROTOCOL must always be 0 (zero)", []⟩]
              ∧ (socket P w args).world.calls = (winsock_init P w).2.calls)
          ∧ (p = 0 →
            (socket P w args).world.calls = (winsock_init P w).2.calls ++ [.socket d t 0]))
      ∧ (P.win32 = false → p = 0 →
          (socket P w args).world.calls = w.calls ++ [.socket d t 0]) := by
  have hmem : ∀ (cs : List os_call) (a b c : Int), cs = (winsock_init P w).2.calls →
      os_call.socket a b c ∈ cs → os_call.socket a b c ∈ w.calls := by
    intro cs a b c hcs hin
    rw [hcs] at hin
    rcases winsock_init_calls P w with h | h
    · rw [h] at hin; exact hin
    · rw [h] at hin
      simpa using hin
  have hzero : (winsock_init P w).1 = true → p = 0 →
      (socket P w args).world.calls = (winsock_init P w).2.calls ++ [.socket d t 0] := by
    intro hinit hp
    subst hp
    rw [socket_valid P w args d t 0 hw hinit hargs]
    simp only [ne_eq, not_true_eq_false, if_false]
    split_ifs <;> simp [error]
  refine ⟨?_, ?_, ?_⟩
  · intro hp
    by_cases hinit : (winsock_init P w).1 = true
    · rw [socket_valid P w args d t p hw hinit hargs]
      simp only [hp, ne_eq, not_false_eq_true, if_true]
      exact ⟨by simp [error], fun a b c hin => hmem _ a b c (by simp [error]) hin⟩
    · have hfalse : (winsock_init P w).1 = false := by simpa using hinit
      have hres : socket P w args = ⟨(winsock_init P w).2, [.undefined]⟩ := by
        simp [socket, hfalse]
      rw [hres]
      exact ⟨(winsock_init_failed P w hfalse), fun a b c hin => hmem _ a b c rfl hin⟩
  · intro hinit
    refine ⟨?_, hzero hinit⟩
    intro hp
    rw [socket_valid P w args d t p hw hinit hargs]
    simp only [hp, ne_eq, not_false_eq_true, if_true]
    exact ⟨by simp [error, (winsock_init_ok P w hw hinit).2], by simp [error]⟩
  · intro hposix hp
    have hinit : winsock_init P w = (true, w) := by simp [winsock_init, hposix]
    have := hzero (by rw [hinit]) hp
    rw [hinit] at this
    exact this

/-- Witness of C9 on the loopback OS: protocol 6 is refused, protocol 0 and no
protocol reach the OS as (2, 1, 0). -/
theorem socket_protocol_must_be_zero_witness :
    ((socket posix_loopback fresh [.scalar 2, .scalar 1, .scalar 6]).world.errors
        = [⟨"socket: for now, PROTOCOL must always be 0 (zero)", []⟩]
      ∧ (socket posix_loopback fresh [.scalar 2, .scalar 1, .scalar 6]).world.calls = [])
      ∧ (socket posix_loopback fresh [.scalar 2, .scalar 1, .scalar 0]).world.calls
        = [.socket 2 1 0]
      ∧ (socket posix_loopback fresh [.scalar 2, .scalar 1]).world.calls = [.socket 2 1 0] :=
  ⟨((socket_protocol_must_be_zero posix_loopback fresh [.scalar 2, .scalar 1, .scalar 6]
        2 1 6 rfl rfl).2.1 rfl).1 (by decide),
   (socket_protocol_must_be_zero posix_loopback fresh [.scalar 2, .scalar 1, .scalar 0]
        2 1 0 rfl rfl).2.2 rfl rfl,
   (socket_protocol_must_be_zero posix_loopback fresh [.scalar 2, .scalar 1]
        2 1 0 rfl rfl).2.2 rfl rfl⟩

/-- C10 (send payload rejection) does not hold for empty arrays.  An empty array of
8-byte elements has byte size 0 and 0 elements, so `send` takes it for a byte
sequence: it raises no error and calls the OS `send` with length 0. -/
theorem send_accepts_empty_wide_array :
    (send posix_loopback fresh [.scalar 3, .num_array 8 []]).world.errors = []
      ∧ (send posix_loopback fresh [.scalar 3, .num_array 8 []]).world.calls
        = [.send 3 [] 0 0] :=
  ⟨by decide, by decide⟩

/-- C10 as amended.  For every handle that converts and every payload that is not a
string and whose byte size differs from its number of elements, `send` raises the
error "invalid DATA to send.  Please format it prior to sending" and makes no OS
call; in particular for every non-empty numeric array whose byte size is its number
of elements times an element byte width other than 1.  An empty numeric array,
whatever its element byte width, passes the test: `send` raises no error and calls
the OS `send` with an empty buffer, length 0 and flags 0. -/
theorem send_rejects_wide_payload (P : Platform) (w : World) (hv : octave_value)
    (fl : octave_value_list) (s f : Int)
    (hw : w.error_state = false) (hsock : hv.int_conv = some s)
    (hfl : optional_flags fl = some f) :
    (∀ data : octave_value, data.is_string = false → data.byte_size ≠ data.numel →
        (send P w ([hv, data] ++ fl)).world.error_state = true
          ∧ (send P w ([hv, data] ++ fl)).world.errors
            = w.errors
              ++ [⟨"connect: invalid DATA to send.  Please format it prior to sending", []⟩]
          ∧ (send P w ([hv, data] ++ fl)).world.calls = w.calls)
      ∧ (∀ (width : Nat) (d : List Int), width ≠ 1 → d ≠ [] →
          (send P w ([hv, .num_array width d] ++ fl)).world.error_state = true
            ∧ (send P w ([hv, .num_array width d] ++ fl)).world.errors
              = w.errors
                ++ [⟨"connect: invalid DATA to send.  Please format it prior to sending", []⟩]
            ∧ (send P w ([hv, .num_array width d] ++ fl)).world.calls = w.calls)
      ∧ (∀ width : Nat,
          (send P w ([hv, .num_array width []] ++ fl)).world.error_state = false
            ∧ (send P w ([hv, .num_array width []] ++ fl)).world.errors = w.errors
            ∧ (send P w ([hv, .num_array width []] ++ fl)).world.calls
              = w.calls ++ [.send s [] 0 0]) := by
  have key : ∀ data : octave_value, data.is_string = false → data.byte_size ≠ data.numel →
      (send P w ([hv, data] ++ fl)).world.error_state = true
        ∧ (send P w ([hv, data] ++ fl)).world.errors
          = w.errors
            ++ [⟨"connect: invalid DATA to send.  Please format it prior to sending", []⟩]
        ∧ (send P w ([hv, data] ++ fl)).world.calls = w.calls := by
    intro data hstr hsize
    rcases optional_flags_cases hfl with ⟨rfl, rfl⟩ | ⟨fv, rfl, hfv⟩
    · simp [send, arg, get_socket_some w hsock hw, hw, hstr, hsize, error]
    · simp [send, arg, int_value_some w hfv, get_socket_some w hsock hw, hw, hstr, hsize,
        error]
  refine ⟨key, ?_, ?_⟩
  · intro width d hwidth hd
    apply key
    · rfl
    · have hpos : 0 < d.length := List.length_pos.mpr hd
      simp only [octave_value.byte_size, octave_value.numel, ne_eq]
      intro h
      have : width * d.length = 1 * d.length := by omega
      exact hwidth (Nat.eq_of_mul_eq_mul_right hpos this)
  · intro width
    rcases optional_flags_cases hfl with ⟨rfl, rfl⟩ | ⟨fv, rfl, hfv⟩
    · simp [send, arg, get_socket_some w hsock hw, hw, octave_value.is_string,
        octave_value.byte_size, octave_value.numel, array_value, octave_value.array_conv,
        syscall, copy_loop]
    · simp [send, arg, int_value_some w hfv, get_socket_some w hsock hw, hw,
        octave_value.is_string, octave_value.byte_size, octave_value.numel, array_value,
        octave_value.array_conv, syscall, copy_loop]

/-- Witness of C10 as amended: a double array (8-byte elements) of three elements
is refused, an empty array of 4-byte elements is sent as zero bytes. -/
theorem send_rejects_wide_payload_witness :
    ((send posix_loopback fresh [.scalar 3, .num_array 8 [1, 2, 3]]).world.errors
        = [⟨"connect: invalid DATA to send.  Please format it prior to sending", []⟩]
      ∧ (send posix_loopback fresh [.scalar 3, .num_array 8 [1, 2, 3]]).world.calls = [])
      ∧ (send posix_loopback fresh [.scalar 3, .num_array 4 []]).world.calls
        = [.send 3 [] 0 0] :=
  ⟨((send_rejects_wide_payload posix_loopback fresh (.scalar 3) [] 3 0 rfl rfl rfl).2.1
      8 [1, 2, 3] (by decide) (by decide)).2,
   ((send_rejects_wide_payload posix_loopback fresh (.scalar 3) [] 3 0 rfl rfl rfl).2.2 4).2.2⟩

/-- What `setsockopt` does once its four arguments convert: one OS call with the
value and width 4, and an error if it returned -1. -/
theorem setsockopt_valid (P : Platform) (w : World) (hv lv ov vv : octave_value)
    (s l o v : Int) (hw : w.error_state = false) (hs : hv.int_conv = some s)
    (hl : lv.int_conv = some l) (ho : ov.int_conv = some o) (hvv : vv.int_conv = some v) :
    setsockopt P w [hv, lv, ov, vv]
      = ⟨if (P.os w.calls (.setsockopt s l o v 4)).ret = -1 then
            error { w with calls := w.calls ++ [.setsockopt s l o v 4],
                           errno := (P.os w.calls (.setsockopt s l o v 4)).errno }
              "setsockopt failed with error %i (%s)"
              [.int (P.os w.calls (.setsockopt s l o v 4)).errno,
               .str (P.strerror (P.os w.calls (.setsockopt s l o v 4)).errno)]
          else { w with calls := w.calls ++ [.setsockopt s l o v 4],
                        errno := (P.os w.calls (.setsockopt s l o v 4)).errno },
         [.undefined]⟩ := by
  simp [setsockopt, arg, get_socket_some w hs hw, hw, int_value_some w hl,
    int_value_some w ho, int_value_some w hvv, syscall]

/-- C11 (option set/get round trip).  For every handle, level, option name and
integer value `v` that convert, over an OS that accepts the `setsockopt` and
answers the following `getsockopt` with the value stored and width 4:
`setsockopt (s, l, o, v)` raises no error, the `getsockopt (s, l, o)` that follows
returns `v` and raises no error, and the two OS calls made are that `setsockopt`
with width 4 and that `getsockopt`. -/
theorem setsockopt_getsockopt_roundtrip (P : Platform) (w : World)
    (hv lv ov vv : octave_value) (s l o v : Int)
    (hw : w.error_state = false) (hs : hv.int_conv = some s)
    (hl : lv.int_conv = some l) (ho : ov.int_conv = some o) (hvv : vv.int_conv = some v)
    (hset : (P.os w.calls (.setsockopt s l o v 4)).ret ≠ -1)
    (hret : (P.os (w.calls ++ [.setsockopt s l o v 4])
      (.getsockopt s l o P.uninit_value P.uninit_len)).ret ≠ -1)
    (hval : (P.os (w.calls ++ [.setsockopt s l o v 4])
      (.getsockopt s l o P.uninit_value P.uninit_len)).optval = v)
    (hlen : (P.os (w.calls ++ [.setsockopt s l o v 4])
      (.getsockopt s l o P.uninit_value P.uninit_len)).optlen = 4) :
    (setsockopt P w [hv, lv, ov, vv]).world.error_state = false
      ∧ (getsockopt P (setsockopt P w [hv, lv, ov, vv]).world [hv, lv, ov]).ret = [.scalar v]
      ∧ (getsockopt P (setsockopt P w [hv, lv, ov, vv]).world [hv, lv, ov]).world.error_state
        = false
      ∧ (getsockopt P (setsockopt P w [hv, lv, ov, vv]).world [hv, lv, ov]).world.errors
        = w.errors
      ∧ (getsockopt P (setsockopt P w [hv, lv, ov, vv]).world [hv, lv, ov]).world.calls
        = w.calls ++ [.setsockopt s l o v 4, .getsockopt s l o P.uninit_value P.uninit_len] := by
  rw [setsockopt_valid P w hv lv ov vv s l o v hw hs hl ho hvv, if_neg hset]
  refine ⟨hw, ?_, ?_, ?_, ?_⟩ <;>
    simp [getsockopt, arg, get_socket, int_value, hs, hl, ho, hw, syscall, hret, hval, hlen]

/-- Witness of C11 on the option-keeping OS: option 2 at level 1 of handle 3 is set
to 5 and read back. -/
theorem setsockopt_getsockopt_roundtrip_witness :
    (getsockopt posix_options
        (setsockopt posix_options fresh [.scalar 3, .scalar 1, .scalar 2, .scalar 5]).world
        [.scalar 3, .scalar 1, .scalar 2]).ret = [.scalar 5]
      ∧ (getsockopt posix_options
        (setsockopt posix_options fresh [.scalar 3, .scalar 1, .scalar 2, .scalar 5]).world
        [.scalar 3, .scalar 1, .scalar 2]).world.error_state = false :=
  ⟨(setsockopt_getsockopt_roundtrip posix_options fresh (.scalar 3) (.scalar 1) (.scalar 2)
      (.scalar 5) 3 1 2 5 rfl rfl rfl rfl rfl (by decide) (by decide) (by decide)
      (by decide)).2.1,
   (setsockopt_getsockopt_roundtrip posix_options fresh (.scalar 3) (.scalar 1) (.scalar 2)
      (.scalar 5) 3 1 2 5 rfl rfl rfl rfl rfl (by decide) (by decide) (by decide)
      (by decide)).2.2.1⟩

/-- C12 (accept shape) does not hold for `sin_port` on a little-endian host.  The
peer connects from 127.0.0.1, port 10000; the OS stores the port in network byte
order, which read as a number on the host is 4135; `accept` returns the record
with `sin_port` 4135, not 10000.  The other fields and the descriptor are as
claimed. -/
theorem accept_returns_port_in_network_order :
    (posix_loopback.os [] (.accept 3)).addr
        = ⟨2, htons posix_loopback.big_endian 10000, ⟨127, 0, 0, 1⟩⟩
      ∧ (accept posix_loopback fresh [.scalar 3]).ret
        = [.scalar 4,
           .scalar_map [("sin_family", .scalar 2), ("sin_port", .scalar 4135),
             ("sin_addr", .str "127.0.0.1")]]
      ∧ (bind posix_loopback fresh [.scalar 3, .scalar 10000]).world.calls
        = [.bind 3 ⟨2, 4135, INADDR_ANY⟩] :=
  ⟨by decide, rfl, by decide⟩

/-- C13 (hostname resolution is permissive).  For every host name string for which
the resolver fails, `gethostbyname` returns the empty sequence of strings and
raises no error. -/
theorem gethostbyname_resolver_failure (P : Platform) (w : World) (v : octave_value)
    (name : String) (hw : w.error_state = false) (hname : v.string_conv = some name)
    (hfail : (P.os w.calls (.gethostbyname name)).host = none) :
    (gethostbyname P w [v]).ret = [.char_rows []]
      ∧ (gethostbyname P w [v]).world.error_state = false
      ∧ (gethostbyname P w [v]).world.errors = w.errors
      ∧ (gethostbyname P w [v]).delivered = [.char_rows []] := by
  simp [gethostbyname, arg, string_value, hname, hw, syscall, hfail, result.delivered]

/-- Witness of C13 on the OS whose resolver finds no host. -/
theorem gethostbyname_resolver_failure_witness :
    (gethostbyname posix_unresolving fresh [.str "no.such.host"]).ret = [.char_rows []]
      ∧ (gethostbyname posix_unresolving fresh [.str "no.such.host"]).world.error_state
        = false :=
  ⟨(gethostbyname_resolver_failure posix_unresolving fresh (.str "no.such.host")
      "no.such.host" rfl rfl rfl).1,
   (gethostbyname_resolver_failure posix_unresolving fresh (.str "no.such.host")
      "no.such.host" rfl rfl rfl).2.1⟩

theorem int_value_calls (v : octave_value) (w : World) :
    (int_value v w).2.calls = w.calls := by
  unfold int_value
  split <;> rfl

theorem int_value_type_loaded (v : octave_value) (w : World) :
    (int_value v w).2.type_loaded = w.type_loaded := by
  unfold int_value
  split <;> rfl

/-- The loop of `gethostbyname`: appending entry after entry yields the texts of
the entries visited, in order. -/
theorem append_loop_eq_map {β : Type} (f : Nat → β) (init : List β) (n : Nat) :
    (List.range n).foldl (fun acc i => acc ++ [f i]) init = init ++ (List.range n).map f := by
  induction n with
  | zero => simp
  | succ k ih => simp [List.range_succ, List.foldl_append, ih]

theorem map_getD_range_eq_take {α β : Type} (f : α → β) (dflt : α) (l : List α) (n : Nat)
    (h : n ≤ l.length) :
    (List.range n).map (fun i => f (l.getD i dflt)) = (l.take n).map f := by
  apply List.ext_getElem
  · simp; omega
  · intro i h1 h2
    simp at h1 h2
    simp [List.getD_eq_getElem?_getD, List.getElem?_eq_getElem (show i < l.length by omega)]

/-- C15 (resolved address count).  For every host name whose resolution succeeds
with address length `h_length` (the address list holding at least `h_length/4`
entries), `gethostbyname` returns exactly `h_length/4` strings, the dotted-decimal
forms of the first `h_length/4` entries of the list in order, and raises no error;
so with `h_length = 4` it returns exactly one string, the first address, however
many addresses follow it in the list. -/
theorem gethostbyname_address_count (P : Platform) (w : World) (v : octave_value)
    (name : String) (host : hostent)
    (hw : w.error_state = false) (hname : v.string_conv = some name)
    (hhost : (P.os w.calls (.gethostbyname name)).host = some host)
    (hlist : (Int.tdiv host.h_length 4).toNat ≤ host.h_addr_list.length) :
    (gethostbyname P w [v]).ret
        = [.char_rows
            ((host.h_addr_list.take (Int.tdiv host.h_length 4).toNat).map inet_ntoa)]
      ∧ ((host.h_addr_list.take (Int.tdiv host.h_length 4).toNat).map inet_ntoa).length
        = (Int.tdiv host.h_length 4).toNat
      ∧ (gethostbyname P w [v]).world.error_state = false
      ∧ (host.h_length = 4 → ∀ (first : in_addr) (more : List in_addr),
          host.h_addr_list = first :: more →
          (gethostbyname P w [v]).ret = [.char_rows [inet_ntoa first]]) := by
  have hsv : string_value v w = (name, w) := by simp [string_value, hname]
  have hret : (gethostbyname P w [v]).ret
      = [.char_rows
          ((host.h_addr_list.take (Int.tdiv host.h_length 4).toNat).map inet_ntoa)] := by
    unfold gethostbyname
    rw [if_neg (by simp)]
    have harg : arg [v] 0 = v := rfl
    simp only [harg, hsv]
    rw [if_neg (by simp [hw])]
    simp only [syscall, hhost]
    rw [append_loop_eq_map (fun i => inet_ntoa (host.h_addr_list.getD i INADDR_ANY)) [] _]
    rw [List.nil_append,
      map_getD_range_eq_take inet_ntoa INADDR_ANY host.h_addr_list _ hlist]
  refine ⟨hret, ?_, ?_, ?_⟩
  · simp; omega
  · simp [gethostbyname, arg, hsv, hw, syscall]
  · intro h4 first more hl
    rw [hret, h4, hl]
    rfl

/-- Witness of C15 on the multihomed OS: the resolver reports 10.0.0.1 and
10.0.0.2 with address length 4, and one string is returned. -/
theorem gethostbyname_address_count_witness :
    (posix_multihomed.os [] (.gethostbyname "host")).host
        = some ⟨4, [⟨10, 0, 0, 1⟩, ⟨10, 0, 0, 2⟩]⟩
      ∧ (gethostbyname posix_multihomed fresh [.str "host"]).ret
        = [.char_rows ["10.0.0.1"]] :=
  ⟨rfl,
   (gethostbyname_address_count posix_multihomed fresh (.str "host") "host"
      ⟨4, [⟨10, 0, 0, 1⟩, ⟨10, 0, 0, 2⟩]⟩ rfl rfl rfl (by decide)).2.2.2 rfl
      ⟨10, 0, 0, 1⟩ [⟨10, 0, 0, 2⟩] rfl⟩

end Sockets
